import Mathlib

/-!
# Verification of the AI-Sales-Deck-Generator document pipeline

Shallow embedding of the deck-generation server (`server/routes/decks.js`,
`server/utils/ai-service-client.js`, `server/models/File.js`,
`server/routes/decks.js` GET handler) and proofs about it.

Strings manipulated character-by-character in the source are modelled as
`List Char` (JavaScript strings are sequences of UTF-16 code units; all the
texts involved in the claims are ASCII, where the two notions agree).
-/

namespace SalesDeck

-- SEGMENT:DEF:js

/-! ## JavaScript primitives used by the embedded code -/

/-- The characters of JavaScript's `\s` class that occur in ASCII text
(space, tab, line feed, carriage return, vertical tab, form feed).
JavaScript additionally includes some Unicode space code points, which never
occur in the texts handled here. -/
def jsWhitespace (c : Char) : Bool :=
  c = ' ' || c = '\t' || c = '\n' || c = '\r' || c = Char.ofNat 11 || c = Char.ofNat 12

/-- JavaScript `String.prototype.trim`: drop leading and trailing `\s`
characters. -/
def jsTrim (l : List Char) : List Char :=
  ((l.dropWhile jsWhitespace).reverse.dropWhile jsWhitespace).reverse

/-- JavaScript `Math.round` on an exact rational: round half towards
positive infinity, `Math.round(x) = ⌊x + 0.5⌋`. -/
def jsRound (q : ℚ) : ℤ := ⌊q + 1/2⌋

/-- JavaScript truncating division result (`Math.trunc(a / b)` implicitly in
the `%` operator): round the quotient towards zero. -/
def jsTrunc (q : ℚ) : ℤ := if q < 0 then -⌊-q⌋ else ⌊q⌋

/-- JavaScript's `%` operator on exact rationals (for a positive divisor):
`a % b = a - b * trunc(a / b)`. -/
def jsMod (a b : ℚ) : ℚ := a - b * jsTrunc (a / b)

/-! ## `chunkString` (server/routes/decks.js lines 51-59)

```js
function chunkString(str, chunkSize = 2000) {
  const chunks = [];
  let i = 0;
  while (i < str.length) {
    chunks.push(str.slice(i, i + chunkSize));
    i += chunkSize;
  }
  return chunks;
}
```
Each loop iteration takes the next `chunkSize` characters.  The guard
`0 < chunkSize` below only excludes the case in which the JavaScript loop
does not terminate (`chunkSize = 0` never advances `i`); the default used by
every caller is 2000. -/

def chunkString (s : List Char) (chunkSize : Nat) : List (List Char) :=
  if h : 0 < chunkSize ∧ s ≠ [] then
    s.take chunkSize :: chunkString (s.drop chunkSize) chunkSize
  else
    []
termination_by s.length
decreasing_by
  simp only [List.length_drop]
  have hs : 0 < s.length := List.length_pos.mpr h.2
  omega


-- SEGMENT:DEF:fence

/-! ## Code-fence stripping (server/routes/decks.js lines 156-160 and 394)

```js
const cleaned = responseRaw
  .replace(/```json\s*/g, "")
  .replace(/```/g, "")
  .trim();
```
Both `getCompetitorAnalysis` and `getExtraSections` run this pipeline on the
raw model response before handing the result to `JSON.parse`.  A global
`replace` scans left to right and never rescans text produced by an earlier
removal. -/

/-- The backtick character (U+0060). -/
def backtick : Char := Char.ofNat 96

/-- First pass, `replace(/```json\s*/g, "")`: remove every occurrence of
three backticks followed by `json` and any following run of whitespace,
scanning left to right. -/
def removeJsonFence (l : List Char) : List Char :=
  match l with
  | c1 :: c2 :: c3 :: c4 :: c5 :: c6 :: c7 :: rest =>
    if c1 = backtick ∧ c2 = backtick ∧ c3 = backtick ∧
        c4 = 'j' ∧ c5 = 's' ∧ c6 = 'o' ∧ c7 = 'n' then
      removeJsonFence (rest.dropWhile jsWhitespace)
    else
      c1 :: removeJsonFence (c2 :: c3 :: c4 :: c5 :: c6 :: c7 :: rest)
  | [] => []
  | c :: rest => c :: removeJsonFence rest
termination_by l.length
decreasing_by
  · have hle : (rest.dropWhile jsWhitespace).length ≤ rest.length :=
      (List.dropWhile_sublist jsWhitespace).length_le
    simp only [List.length_cons]
    omega
  · simp only [List.length_cons]
    omega
  · simp only [List.length_cons]
    omega

/-- Second pass, `replace(/```/g, "")`: remove every (leftmost,
non-rescanned) occurrence of three consecutive backticks. -/
def removeTriples (l : List Char) : List Char :=
  match l with
  | a :: b :: c :: rest =>
    if a = backtick ∧ b = backtick ∧ c = backtick then
      removeTriples rest
    else
      a :: removeTriples (b :: c :: rest)
  | l => l

/-- The whole cleaning pipeline applied to a raw model response: both
`replace` passes followed by `trim()`; its output is what `JSON.parse`
receives. -/
def cleanModelResponse (s : List Char) : List Char :=
  jsTrim (removeTriples (removeJsonFence s))

/-- Decision procedure: does the list contain three consecutive
backticks anywhere? -/
def hasTripleBacktick (l : List Char) : Bool :=
  match l with
  | a :: b :: c :: rest =>
    (a = backtick && b = backtick && c = backtick) || hasTripleBacktick (b :: c :: rest)
  | _ => false

/-- Does the list start with two backticks? (auxiliary for the
fence-stripping proof). -/
def startsTwoBackticks (l : List Char) : Bool :=
  match l with
  | a :: b :: _ => a = backtick && b = backtick
  | _ => false

/-- Drop the longest run of characters satisfying `p` from the end of the
list (the tail half of `trim()`). -/
def dropTrailingWhile (p : Char → Bool) : List Char → List Char
  | [] => []
  | a :: t =>
    if dropTrailingWhile p t = [] ∧ p a then [] else a :: dropTrailingWhile p t


-- SEGMENT:DEF:color

/-! ## Colour utilities (server/routes/decks.js lines 199-298)

`getContrastingTextColor` (lines 209-217):
```js
function getContrastingTextColor(hex) {
  const cleaned = hex.replace(/^#/, "");
  const r = parseInt(cleaned.substring(0, 2), 16) / 255;
  const g = parseInt(cleaned.substring(2, 4), 16) / 255;
  const b = parseInt(cleaned.substring(4, 6), 16) / 255;
  const srgb = (v) => (v <= 0.03928 ? v / 12.92 : Math.pow((v + 0.055) / 1.055, 2.4));
  const L = 0.2126 * srgb(r) + 0.7152 * srgb(g) + 0.0722 * srgb(b);
  return L > 0.5 ? "#000000" : "#ffffff";
}
```
`parseInt(-, 16)` yields NaN on non-hexadecimal input and the source then
carries NaN through every float operation; the claims only quantify over
6-digit hex colour inputs, so the embedding returns `none` outside that
domain (an `Option` models the NaN-poisoned executions).  The float
arithmetic is modelled by exact real arithmetic. -/

/-- One hexadecimal digit as `parseInt(-, 16)` reads it. -/
def hexDigit? (c : Char) : Option Nat :=
  if '0' ≤ c ∧ c ≤ '9' then some (c.toNat - '0'.toNat)
  else if 'a' ≤ c ∧ c ≤ 'f' then some (c.toNat - 'a'.toNat + 10)
  else if 'A' ≤ c ∧ c ≤ 'F' then some (c.toNat - 'A'.toNat + 10)
  else none

/-- `parseInt` of a two-character hexadecimal string. -/
def hexPairVal? (c1 c2 : Char) : Option Nat := do
  let d1 ← hexDigit? c1
  let d2 ← hexDigit? c2
  pure (16 * d1 + d2)

/-- A parsed 24-bit colour: the three `parseInt(cleaned.substring(..), 16)`
results. -/
structure RGB24 where
  r : Nat
  g : Nat
  b : Nat
deriving DecidableEq, Repr

/-- `hex.replace(/^#/, "")`: drop a single leading hash. -/
def stripHash : List Char → List Char
  | c :: rest => if c = '#' then rest else c :: rest
  | [] => []

/-- The three channel values of a six-hex-digit string. -/
def parseHex6? : List Char → Option RGB24
  | [c1, c2, c3, c4, c5, c6] => do
    let r ← hexPairVal? c1 c2
    let g ← hexPairVal? c3 c4
    let b ← hexPairVal? c5 c6
    pure ⟨r, g, b⟩
  | _ => none

/-- The sRGB linearisation `srgb` closure of `getContrastingTextColor`. -/
noncomputable def srgbLin (v : ℝ) : ℝ :=
  if v ≤ 0.03928 then v / 12.92 else ((v + 0.055) / 1.055) ^ (2.4 : ℝ)

/-- The relative luminance `L` of `getContrastingTextColor`. -/
noncomputable def relativeLuminance (c : RGB24) : ℝ :=
  0.2126 * srgbLin ((c.r : ℝ) / 255) + 0.7152 * srgbLin ((c.g : ℝ) / 255) +
    0.0722 * srgbLin ((c.b : ℝ) / 255)

/-- `getContrastingTextColor`: black text over a light colour
(`L > 0.5`), white text otherwise. -/
noncomputable def getContrastingTextColor (hex : List Char) : Option (List Char) :=
  (parseHex6? (stripHash hex)).map fun c =>
    if 0.5 < relativeLuminance c then "#000000".data else "#ffffff".data

/-! `hexToHsl` (lines 220-256) converts the parsed channels to rounded
hue/saturation/lightness integers; all its arithmetic is exact rational
arithmetic plus `Math.round`. -/

/-- The rounded HSL triple `hexToHsl` returns. -/
structure HSL where
  h : ℤ
  s : ℤ
  l : ℤ
deriving DecidableEq, Repr

/-- `hexToHsl` (lines 220-256). -/
def hexToHsl (c : RGB24) : HSL :=
  let r : ℚ := (c.r : ℚ) / 255
  let g : ℚ := (c.g : ℚ) / 255
  let b : ℚ := (c.b : ℚ) / 255
  let mx := max r (max g b)
  let mn := min r (min g b)
  let l := (mx + mn) / 2
  if mx = mn then
    ⟨0, 0, jsRound (l * 100)⟩
  else
    let d := mx - mn
    let s := if 1/2 < l then d / (2 - mx - mn) else d / (mx + mn)
    let h := if mx = r then (g - b) / d + (if g < b then 6 else 0)
      else if mx = g then (b - r) / d + 2
      else (r - g) / d + 4
    ⟨jsRound (h / 6 * 360), jsRound (s * 100), jsRound (l * 100)⟩

/-- One `hsla(h, s%, l%, alpha)` CSS colour of `hslToRgba` (lines 259-261),
kept as its four components. -/
structure HSLA where
  h : ℚ
  s : ℚ
  l : ℚ
  a : ℚ
deriving DecidableEq, Repr

/-- `hslToRgba(h, s, l, alpha)` (lines 259-261). -/
def hslToRgba (h s l alpha : ℚ) : HSLA := ⟨h, s, l, alpha⟩

/-- The pie branch of `renderChart` (lines 279-285): one fill and one
border colour per slice, the hue rotated by `i * 360 / count` and reduced
modulo 360, fills at lightness `l - 10` and alpha 0.6, borders at
lightness `l` and alpha 1. -/
def piePalette (hsl : HSL) (count : Nat) : List HSLA × List HSLA :=
  ((List.range count).map fun i : Nat =>
      hslToRgba (jsMod ((hsl.h : ℚ) + ((i : ℚ) * 360) / (count : ℚ)) 360)
        (hsl.s : ℚ) ((hsl.l : ℚ) - 10) (6/10),
   (List.range count).map fun i : Nat =>
      hslToRgba (jsMod ((hsl.h : ℚ) + ((i : ℚ) * 360) / (count : ℚ)) 360)
        (hsl.s : ℚ) (hsl.l : ℚ) 1)

/-- `Math.min(l + 10, 90)` of the bar branch. -/
def barMaxLight (l : ℤ) : ℤ := min (l + 10) 90

/-- `Math.max(l - 20, 10)` of the bar branch. -/
def barMinLight (l : ℤ) : ℤ := max (l - 20) 10

/-- `count > 1 ? (maxLight - minLight) / (count - 1) : 0`. -/
def barStep (l : ℤ) (count : Nat) : ℚ :=
  if 1 < count then ((barMaxLight l : ℚ) - (barMinLight l : ℚ)) / ((count : ℚ) - 1) else 0

/-- `Math.round(maxLight - step * i)`, the border lightness of series `i`. -/
def barCurrL (l : ℤ) (count : Nat) (i : Nat) : ℤ :=
  jsRound ((barMaxLight l : ℚ) - barStep l count * (i : ℚ))

/-- The bar/line branch of `renderChart` (lines 286-298): hue and
saturation fixed, lightness interpolated from `maxLight` down to
`minLight`, fills 5 lighter-units below the border and at alpha 0.6. -/
def barPalette (hsl : HSL) (count : Nat) : List HSLA × List HSLA :=
  ((List.range count).map fun i : Nat =>
      hslToRgba (hsl.h : ℚ) (hsl.s : ℚ) ((barCurrL hsl.l count i : ℚ) - 5) (6/10),
   (List.range count).map fun i : Nat =>
      hslToRgba (hsl.h : ℚ) (hsl.s : ℚ) (barCurrL hsl.l count i : ℚ) 1)

/-- The palette computation of `renderChart` (lines 264-298): convert the
primary colour to HSL, then one colour pair per value, by hue rotation for
pie charts and by lightness interpolation otherwise.  `count` is
`instr.values.length` (or 1 when `instr.values` is not an array). -/
def renderChartPalette (instrType : String) (count : Nat) (primaryColorHex : List Char) :
    Option (List HSLA × List HSLA) :=
  (parseHex6? (stripHash primaryColorHex)).map fun rgb =>
    if instrType = "pie" then piePalette (hexToHsl rgb) count
    else barPalette (hexToHsl rgb) count


-- SEGMENT:DEF:local

/-! ## Local AI-service client (server/utils/ai-service-client.js)

`processSensitiveDocument` retries the Flask backend up to `this.retries = 3`
times (the module export always calls it without options, so
`maxRetries = 3`), waiting `Math.min(1000 * attempt, 5000)` ms between failed
attempts, and falls back to `getFallbackResult` when every attempt fails.
The backend call is modelled by an oracle giving each attempt's outcome;
`Math.random()` by a stream `rng` of draws in `[0, 1)`; `new
Date().toISOString()` by a `clock` string. -/

/-- JavaScript `String.prototype.split` on a character-class-run regex
(`[.!?]+` or `\s+`): the segments between maximal nonempty separator runs,
with empty segments kept at the boundaries (`".a".split` begins with `""`,
`"a.".split` ends with `""`, `"".split` is `[""]`). -/
def splitRuns (p : Char → Bool) : List Char → List (List Char)
  | [] => [[]]
  | c :: rest =>
    if p c then
      match rest with
      | d :: _ => if p d then splitRuns p rest else [] :: splitRuns p rest
      | [] => [[], []]
    else
      match splitRuns p rest with
      | g :: gs => (c :: g) :: gs
      | [] => [[c]]

/-- `Array.prototype.join(sep)`. -/
def joinSep (sep : List Char) : List (List Char) → List Char
  | [] => []
  | [x] => x
  | x :: xs => x ++ sep ++ joinSep sep xs

/-- The sentence separators of `getSummaryFallback`, `[.!?]`. -/
def isSentenceEnd (c : Char) : Bool := c = '.' || c = '!' || c = '?'

/-- `getSummaryFallback` (lines 157-165): the whole text when short enough,
otherwise the first three sentences longer than 20 characters, truncated to
`maxLength - 3` plus an ellipsis when still too long. -/
def getSummaryFallback (text : List Char) (maxLength : Nat) : List Char :=
  if text.length ≤ maxLength then text
  else
    let sentences := ((splitRuns isSentenceEnd text).map jsTrim).filter
      (fun s => 20 < s.length)
    let summary := joinSep ". ".data (sentences.take 3)
    if summary.length ≤ maxLength then summary
    else summary.take (maxLength - 3) ++ "...".data

/-- The stop-word set of `extractKeywordsFallback` (line 168). -/
def stopWords : List (List Char) :=
  ["the", "a", "an", "and", "or", "but", "in", "on", "at", "to", "for", "of",
   "with", "by", "is", "are", "was", "were", "be", "been", "have", "has",
   "had", "do", "does", "did", "will", "would", "could", "should"].map String.data

/-- JavaScript `\w`: `[A-Za-z0-9_]`. -/
def isWordChar (c : Char) : Bool :=
  ('a' ≤ c && c ≤ 'z') || ('A' ≤ c && c ≤ 'Z') || ('0' ≤ c && c ≤ '9') || c = '_'

/-- Count the words into an association list in first-occurrence order (the
`wordCount` object of `extractKeywordsFallback`).  JavaScript objects
enumerate all-digit keys first in numeric order; none of the texts evaluated
in this file produce all-digit keywords, where that difference could show. -/
def bumpCount (w : List Char) : List (List Char × Nat) → List (List Char × Nat)
  | [] => [(w, 1)]
  | (x, n) :: rest => if x = w then (x, n + 1) :: rest else (x, n) :: bumpCount w rest

/-- Stable insert for a descending sort by an integer key: an element moves
past strictly greater keys only, so ties keep their original order — the
behaviour of the (stable) `Array.prototype.sort` with comparator
`(a, b) => b - a`. -/
def insertDescBy {α : Type} (key : α → ℤ) (x : α) : List α → List α
  | [] => [x]
  | y :: ys => if key x < key y then y :: insertDescBy key x ys else x :: y :: ys

/-- Stable descending sort by an integer key. -/
def stableSortDescBy {α : Type} (key : α → ℤ) : List α → List α
  | [] => []
  | x :: xs => insertDescBy key x (stableSortDescBy key xs)

/-- `extractKeywordsFallback` (lines 167-181): lower-case, replace every
non-word non-space character by a space, split on whitespace, drop short
words and stop words, count occurrences, sort by count descending, keep the
first `maxKeywords` words. -/
def extractKeywordsFallback (text : List Char) (maxKeywords : Nat) : List (List Char) :=
  let lowered := text.map Char.toLower
  let replaced := lowered.map fun c =>
    if isWordChar c || jsWhitespace c then c else ' '
  let words := (splitRuns jsWhitespace replaced).filter fun w =>
    2 < w.length && !stopWords.contains w
  let counts := words.foldl (fun acc w => bumpCount w acc) []
  ((stableSortDescBy (fun e => (e.2 : ℤ)) counts).take maxKeywords).map fun e => e.1

/-! `extractMetricsFallback` (lines 183-203) scans the text with seven
regexes of the common shape

    LITERAL  .*?  \$? [\d,]+ [\.\d]* SUFFIX?        (flags g, i)

where SUFFIX is `[kmb]` or `%` and the `\$?` is present only in some
patterns.  `.` does not match line terminators, `.*?` is lazy (the shortest
gap wins), the number classes are greedy, and a global match resumes after
the end of the previous match.  The optional trailing `s` of `customers?`
is absorbed by the lazy gap: with or without it the same substrings match,
so the literal is modelled as `customer`. -/

/-- `[\d,]`. -/
def isDigitComma (c : Char) : Bool := c.isDigit || c = ','

/-- `[\.\d]`. -/
def isDotDigit (c : Char) : Bool := c.isDigit || c = '.'

/-- `[kmb]` under the `i` flag. -/
def isKmbChar (c : Char) : Bool := c.toLower = 'k' || c.toLower = 'm' || c.toLower = 'b'

/-- JavaScript line terminators (`.` never matches these). -/
def isLineTerminator (c : Char) : Bool := c = '\n' || c = '\r'

/-- Match `[\d,]+[\.\d]*SUFFIX?` at the head of the list; the count of
matched characters.  The classes are greedy and the optional suffix takes a
character when it can. -/
def matchNumTail (pct : Bool) (l : List Char) : Option Nat :=
  let r1 := l.takeWhile isDigitComma
  if r1.length = 0 then none
  else
    let rest1 := l.drop r1.length
    let r2 := rest1.takeWhile isDotDigit
    let rest2 := rest1.drop r2.length
    let sufLen := match rest2 with
      | c :: _ => if (if pct then c = '%' else isKmbChar c) then 1 else 0
      | [] => 0
    some (r1.length + r2.length + sufLen)

/-- Match `\$?[\d,]+[\.\d]*SUFFIX?` at the head of the list (`\$?` only when
`dollar` is set; if the `$` is not followed by a digit or comma the whole
tail fails, exactly as the regex backtracking does). -/
def matchTail (dollar pct : Bool) (l : List Char) : Option Nat :=
  match l with
  | '$' :: rest =>
    if dollar then (matchNumTail pct rest).map (· + 1) else matchNumTail pct l
  | _ => matchNumTail pct l

/-- The lazy gap `.*?` followed by the tail: the smallest number of
non-line-terminator characters to skip so the tail matches; the count of
gap plus tail characters. -/
def gapScan (dollar pct : Bool) (l : List Char) : Option Nat :=
  match matchTail dollar pct l with
  | some n => some n
  | none =>
    match l with
    | [] => none
    | c :: rest =>
      if isLineTerminator c then none
      else (gapScan dollar pct rest).map (· + 1)

/-- Case-insensitive literal match at the head (`lit` is given lower-case). -/
def matchesLower (lit : List Char) (l : List Char) : Bool :=
  ((l.take lit.length).map Char.toLower) = lit

/-- The whole pattern at the current position: the literal, then the lazy
gap and tail; the count of matched characters. -/
def matchPatternAt (lit : List Char) (dollar pct : Bool) (l : List Char) : Option Nat :=
  if matchesLower lit l then (gapScan dollar pct (l.drop lit.length)).map (· + lit.length)
  else none

/-- `text.match(pattern)` for a global pattern: every match, scanning left
to right and resuming after each match.  The fuel counts scan steps; each
step either advances one character or consumes a whole (nonempty) match, so
`l.length` steps always suffice for the nonempty literals used here. -/
def findMatchesGo (lit : List Char) (dollar pct : Bool) : Nat → List Char → List (List Char)
  | 0, _ => []
  | fuel + 1, l =>
    match matchPatternAt lit dollar pct l with
    | some n => l.take n :: findMatchesGo lit dollar pct fuel (l.drop n)
    | none =>
      match l with
      | [] => []
      | _ :: rest => findMatchesGo lit dollar pct fuel rest

/-- All matches of one metric pattern in the text. -/
def findMatches (lit : List Char) (dollar pct : Bool) (l : List Char) : List (List Char) :=
  findMatchesGo lit dollar pct l.length l

/-- The seven patterns of `extractMetricsFallback`: literal, has `\$?`,
suffix is `%` (otherwise `[kmb]`). -/
def metricPatterns : List (List Char × Bool × Bool) :=
  [("revenue".data, true, false),
   ("profit".data, true, false),
   ("growth".data, false, true),
   ("market share".data, false, true),
   ("customer".data, false, false),
   ("sales".data, true, false),
   ("margin".data, false, true)]

/-- `extractMetricsFallback` (lines 183-203): for each pattern the first two
matches, at most ten in total. -/
def extractMetricsFallback (text : List Char) : List (List Char) :=
  ((metricPatterns.map fun pat =>
      (findMatches pat.1 pat.2.1 pat.2.2 text).take 2).flatten).take 10

/-- `generateInsightsFallback` (lines 205-219). -/
def generateInsightsFallback (keywords metrics : List (List Char)) : List Char :=
  joinSep " ".data
    ((if 0 < keywords.length then
        ["Key focus areas include: ".data ++ joinSep ", ".data (keywords.take 5)]
      else []) ++
     (if 0 < metrics.length then
        ["Important business metrics identified: ".data ++ joinSep ", ".data (metrics.take 3)]
      else []) ++
     ["Analysis completed using local processing with limited AI capabilities.".data])

/-- One chart configuration of `generatePlotDataFallback`. -/
structure PlotData where
  title : List Char
  type : List Char
  labels : List (List Char)
  values : List ℤ
deriving DecidableEq, Repr

/-- `generatePlotDataFallback` (lines 221-243): a bar chart of the top five
keywords whose heights are `Math.floor(Math.random() * 20) + 5` — one fresh
random draw per keyword — when more than three keywords exist, and a fixed
quarterly line chart when any metric was scraped. -/
def generatePlotDataFallback (keywords metrics : List (List Char)) (rng : Nat → ℚ) :
    List PlotData :=
  (if 3 < keywords.length then
    [⟨"Key Topics Frequency".data, "bar".data, keywords.take 5,
      (List.range (keywords.take 5).length).map fun i => ⌊rng i * 20⌋ + 5⟩]
   else []) ++
  (if 0 < metrics.length then
    [⟨"Business Metrics Overview".data, "line".data,
      ["Q1".data, "Q2".data, "Q3".data, "Q4".data], [25, 30, 35, 40]⟩]
   else [])

/-- The record `processSensitiveDocument` resolves with (the Flask
response's shape on success, `getFallbackResult`'s shape on fallback). -/
structure LocalResult where
  summary : List Char
  keywords : List (List Char)
  metrics : List (List Char)
  insights : List Char
  plotData : List PlotData
  processedLocally : Bool
  processedWithAI : Bool
  fallback : Bool
  error : List Char
  timestamp : List Char
deriving DecidableEq, Repr

/-- `getFallbackResult` (lines 137-154): the deterministic heuristics for
summary, keywords, metrics and insights, the plot data (which draws from
`Math.random`), and `error?.message || 'AI service unavailable'`. -/
def getFallbackResult (text : List Char) (errMsg : Option (List Char))
    (rng : Nat → ℚ) (clock : List Char) : LocalResult :=
  let summary := getSummaryFallback text 300
  let keywords := extractKeywordsFallback text 10
  let metrics := extractMetricsFallback text
  ⟨summary, keywords, metrics,
   generateInsightsFallback keywords metrics,
   generatePlotDataFallback keywords metrics rng,
   true, false, true,
   (match errMsg with
    | some m => if m = [] then "AI service unavailable".data else m
    | none => "AI service unavailable".data),
   clock⟩

/-- One attempt's outcome at the axios call: the service responded with
data, responded with falsy data (the `if (response.data)` guard falls
through without an error), or threw. -/
inductive AttemptOutcome where
  | success (r : LocalResult)
  | emptyData
  | failure (msg : List Char)
deriving DecidableEq, Repr

/-- `Math.min(1000 * attempt, 5000)` (line 63), the backoff before the next
retry. -/
def backoffWait (attempt : Nat) : Nat := min (1000 * attempt) 5000

/-- The retry loop of `processSensitiveDocument` (lines 33-68):
`remaining` counts the attempts left (initially `maxRetries`), `attempt`
the 1-based attempt number; a wait is recorded only when another attempt
remains (`attempt < maxRetries`), and only a thrown error updates
`lastError`.  Returns the successful data (if any), the number of attempts
made, the waits in order, and the last error. -/
def processAttempts (oracle : Nat → AttemptOutcome) :
    Nat → Nat → List Nat → Option (List Char) →
    Option LocalResult × Nat × List Nat × Option (List Char)
  | 0, attempt, waits, lastErr => (none, attempt - 1, waits.reverse, lastErr)
  | remaining + 1, attempt, waits, lastErr =>
    match oracle attempt with
    | .success r => (some r, attempt, waits.reverse, lastErr)
    | .emptyData => processAttempts oracle remaining (attempt + 1) waits lastErr
    | .failure msg =>
      processAttempts oracle remaining (attempt + 1)
        (if 0 < remaining then backoffWait attempt :: waits else waits) (some msg)

/-- What one run of `processSensitiveDocument` did: the resolved record,
the attempts made, and the backoff waits issued. -/
structure RunLog where
  result : LocalResult
  attemptsMade : Nat
  waits : List Nat
deriving DecidableEq, Repr

/-- `processSensitiveDocument` (lines 29-73) as exported (no options, so
`maxRetries = 3`): the first successful attempt's data, or
`getFallbackResult` after the third failure. -/
def processSensitiveDocument (text : List Char) (oracle : Nat → AttemptOutcome)
    (rng : Nat → ℚ) (clock : List Char) : RunLog :=
  match processAttempts oracle 3 1 [] none with
  | (some r, made, ws, _) => ⟨r, made, ws⟩
  | (none, made, ws, lastErr) => ⟨getFallbackResult text lastErr rng clock, made, ws⟩


-- SEGMENT:DEF:competitor

/-! ## Competitor analysis (server/routes/decks.js lines 91-197 and 547-561)

`getCompetitorAnalysis` prompts the remote model with the full combined
corpus, strips code fences from the response, and `JSON.parse`s it.  Its
`catch` block (lines 170-196) builds a fixed fallback analysis — but before
returning it, line 172 evaluates `responseRaw?.substring(0, 500)`.
`responseRaw` is a `const` declared inside the `try` block (line 153) and
is not in scope in the `catch` block, so that identifier lookup throws a
`ReferenceError` (optional chaining guards only `null`/`undefined` values,
not undeclared names).  The fallback return on line 175 is therefore
unreachable: every failure (model call rejected, or unparseable JSON)
escapes `getCompetitorAnalysis` as a `ReferenceError`, and the caller's
`catch` (line 556-559) sets `competitorAnalysis = null`. -/

/-- One competitor entry of the expected model output. -/
structure CompetitorProfile where
  name : String
  type : String
  strengths : List String
  weaknesses : List String
  marketPosition : String
  comparisonMetrics : List (String × String)
deriving DecidableEq, Repr

/-- The `brandPositioning` block. -/
structure BrandPositioning where
  competitiveAdvantages : List String
  marketPosition : String
  differentiators : List String
  competitiveThreats : List String
  marketOpportunities : List String
deriving DecidableEq, Repr

/-- The `marketLandscape` block. -/
structure MarketLandscape where
  industrySize : String
  growthRate : String
  keyTrends : List String
  competitiveIntensity : String
deriving DecidableEq, Repr

/-- The whole competitor-analysis record. -/
structure CompetitiveAnalysis where
  competitors : List CompetitorProfile
  brandPositioning : BrandPositioning
  marketLandscape : MarketLandscape
  recommendations : List String
deriving DecidableEq, Repr

/-- The fixed fallback analysis the `catch` block constructs (lines
175-195): same shape as a genuine result, generic copy, empty competitor
list.  Unreachable in the source because of the scoping error described
above. -/
def fallbackCompetitorAnalysis : CompetitiveAnalysis :=
  ⟨[],
   ⟨["Innovative solutions", "Strong market presence"],
    "Well-positioned in the market based on available data",
    ["Unique value proposition", "Customer-focused approach"],
    ["Market competition", "Industry changes"],
    ["Market expansion", "Technology advancement"]⟩,
   ⟨"Information not available in documents",
    "Information not available in documents",
    ["Digital transformation", "Market evolution"],
    "medium"⟩,
   ["Leverage identified competitive advantages",
    "Monitor competitor activities closely",
    "Focus on differentiation strategies"]⟩

/-- The outcome of a JavaScript async function: resolved, or rejected with
a thrown error (identified by its message). -/
inductive JsOutcome (α : Type) where
  | ok (a : α)
  | thrown (err : List Char)
deriving DecidableEq, Repr

/-- The message of the error the catch block itself throws. -/
def responseRawReferenceError : List Char :=
  "ReferenceError: responseRaw is not defined".data

/-- `getCompetitorAnalysis` (lines 151-196), parametrised by `JSON.parse`
restricted to the expected shape (`parseJson`, an external builtin) and by
the model call's outcome.  On success the cleaned response is parsed; on
any failure the catch block throws the `ReferenceError` before reaching its
fallback return. -/
def getCompetitorAnalysis (parseJson : List Char → Option CompetitiveAnalysis)
    (modelCall : Except (List Char) (List Char)) : JsOutcome CompetitiveAnalysis :=
  match modelCall with
  | .error _ => .thrown responseRawReferenceError
  | .ok responseRaw =>
    match parseJson (cleanModelResponse responseRaw) with
    | some analysis => .ok analysis
    | none => .thrown responseRawReferenceError

/-- The caller (router.post, lines 547-561): `competitorAnalysis` is the
resolved analysis, or `null` when `getCompetitorAnalysis` threw. -/
def competitorAnalysisStage (parseJson : List Char → Option CompetitiveAnalysis)
    (modelCall : Except (List Char) (List Char)) : Option CompetitiveAnalysis :=
  match getCompetitorAnalysis parseJson modelCall with
  | .ok a => some a
  | .thrown _ => none


-- SEGMENT:DEF:router

/-! ## The deck-build router (server/routes/decks.js lines 410-471) and the
prompts later remote-powered stages build from the combined corpus.

A document as the route reads it: `extractTextFromFile`'s result and the
`fileDoc.sensitive` flag the standard path checks.  (The persisted
`FileSchema` in server/models/File.js declares no `sensitive` path, so on
documents stored through it the flag reads as `undefined`, i.e. false; the
flag below is the boolean the route's condition consumes.) -/
structure FileDoc where
  name : String
  text : String
  sensitive : Bool
deriving DecidableEq, Repr

/-- Corpus construction (lines 430-471).  Fast path (`!hasSensitiveFiles`
and a nonempty batch): every document's raw text is appended.  Standard
path: a sensitive document contributes the marked local summary, any other
its raw text. -/
def buildCombinedText (hasSensitiveFiles : Bool) (docs : List FileDoc)
    (localSummary : String → String) : String :=
  if !hasSensitiveFiles && !docs.isEmpty then
    docs.foldl (fun acc d => acc ++ "\n\n" ++ d.text) ""
  else
    docs.foldl (fun acc d =>
      if d.sensitive then
        acc ++ "\n\n[SENSITIVE DOCUMENT SUMMARY]: " ++ localSummary d.text
      else acc ++ "\n\n" ++ d.text) ""

/-- The text of the competitor-analysis prompt before the brand name
(line 99). -/
def competitorPromptIntro : String :=
  "You are a competitive intelligence analyst. Analyze the complete document content below to identify competitors and provide competitive positioning analysis for "

/-- Between the brand name and the interpolated corpus (lines 99-102). -/
def competitorPromptDocHeader : String :=
  ".\n\nDOCUMENT CONTENT:\n"

/-- Between the corpus and the second brand-name interpolation
(lines 102-108). -/
def competitorPromptTaskA : String :=
  "\n\nTASK: Provide a comprehensive competitor analysis including:\n1. Identify all direct and indirect competitors mentioned or implied\n2. Analyze competitive strengths and weaknesses\n3. Market positioning comparison\n4. Competitive advantages of "

/-- After the second brand name: the remaining task items, the JSON shape
the model must return (lines 108-148) and the closing instruction. -/
def competitorPromptTaskB : String :=
  "\n5. Market threats and opportunities\n6. Competitive metrics and benchmarks (if available)\n\nReturn your analysis in the following JSON format:\n\x7b\n  \"competitors\": [\n    \x7b\n      \"name\": \"Competitor Name\",\n      \"type\": \"direct|indirect\",\n      \"strengths\": [\"strength1\", \"strength2\"],\n      \"weaknesses\": [\"weakness1\", \"weakness2\"],\n      \"marketPosition\": \"description of their market position\",\n      \"comparisonMetrics\": \x7b\n        \"marketShare\": \"percentage or description\",\n        \"revenue\": \"amount or description\", \n        \"customers\": \"number or description\"\n      \x7d\n    \x7d\n  ],\n  \"brandPositioning\": \x7b\n    \"competitiveAdvantages\": [\"advantage1\", \"advantage2\"],\n    \"marketPosition\": \"description of brand's position\",\n    \"differentiators\": [\"differentiator1\", \"differentiator2\"],\n    \"competitiveThreats\": [\"threat1\", \"threat2\"],\n    \"marketOpportunities\": [\"opportunity1\", \"opportunity2\"]\n  \x7d,\n  \"marketLandscape\": \x7b\n    \"industrySize\": \"market size if mentioned\",\n    \"growthRate\": \"growth rate if mentioned\",\n    \"keyTrends\": [\"trend1\", \"trend2\"],\n    \"competitiveIntensity\": \"high|medium|low\"\n  \x7d,\n  \"recommendations\": [\n    \"Strategic recommendation 1\",\n    \"Strategic recommendation 2\",\n    \"Strategic recommendation 3\"\n  ]\n\x7d\n\nOnly return valid JSON. Base analysis strictly on information provided in the documents."

/-- The competitor-analysis prompt (lines 98-149) as interpolated and
trimmed. -/
def competitorPrompt (combinedText brandName : String) : String :=
  competitorPromptIntro ++ brandName ++ competitorPromptDocHeader ++ combinedText ++
    competitorPromptTaskA ++ brandName ++ competitorPromptTaskB

/-- Before the numbered chunk summaries (lines 65-68). -/
def mergeSummariesPromptIntro : String :=
  "You have been given a list of brief summaries about a single brand's documents.\nYour job is to combine these into one cohesive, concise master summary (approx. 200-300 words).\nHere are the chunk summaries, in order:\n\n"

/-- After the numbered chunk summaries (lines 69-71). -/
def mergeSummariesPromptOutro : String :=
  "\n\nPlease return just the combined summary (no bullet lists, no JSON)."

/-- Before the chunk text (lines 81-84). -/
def summarizeChunkPromptIntro : String :=
  "You are an AI assistant helping to summarize a document. Please read the text below\nand produce a concise paragraph (around 100–150 words) capturing its main points:\n\n\"\"\""

/-- After the chunk text (line 84). -/
def summarizeChunkPromptOutro : String :=
  "\"\"\""

/-- Before the first brand-name interpolation (line 350). -/
def longDescriptionPromptA : String :=
  "Create a concise brand overview for "

/-- Between the two brand-name interpolations (lines 350-352). -/
def longDescriptionPromptB : String :=
  ". Write a professional 1-2 paragraph summary that highlights what the company does, key strengths, and market position. \n\nBrand: "

/-- Between the brand name and the short description (line 353). -/
def longDescriptionPromptC : String :=
  "\nContext: "

/-- Between the short description and the master summary (line 354). -/
def longDescriptionPromptD : String :=
  "\nSummary: "

/-- After the master summary (lines 354-356). -/
def longDescriptionPromptE : String :=
  "\n\nBe direct and engaging. Do NOT include any formatting markers, labels, or prefixes like \"Long Description:\" or \"**\". Start directly with the content."

/-- Before the master summary (lines 380-390); the summary ends the prompt. -/
def extraSectionsPromptIntro : String :=
  "You are an AI assistant creating a sales deck. Given the concise summary of documents below, identify two additional sections (beyond description, videos, figures, documents) that would best highlight the brand's strengths or insights. For each section, output exactly one JSON object with:\n\n\x7b\n  \"heading\": \"<Section Heading>\",\n  \"content\": \"<Paragraph of ~100–150 words>\"\n\x7d\n\nReturn an array of exactly two such objects in valid JSON. No extra commentary.\n\nConcise Summary of All Documents:\n"

/-- `trim()` at the String level. -/
def jsTrimString (s : String) : String := String.mk (jsTrim s.data)

/-- The `summarizeChunk` prompt (lines 80-85). -/
def summarizeChunkPrompt (chunkText : String) : String :=
  summarizeChunkPromptIntro ++ chunkText ++ summarizeChunkPromptOutro

/-- The `mergeSummaries` prompt (lines 64-72). -/
def mergeSummariesPrompt (summaries : List String) : String :=
  mergeSummariesPromptIntro ++
    String.intercalate "\n\n"
      (summaries.mapIdx fun i s => "Chunk " ++ toString (i + 1) ++ ":\n" ++ s) ++
    mergeSummariesPromptOutro

/-- The final `getLongDescription` prompt (lines 349-357). -/
def longDescriptionPrompt (brandName shortDesc masterSummary : String) : String :=
  longDescriptionPromptA ++ brandName ++ longDescriptionPromptB ++ brandName ++
    longDescriptionPromptC ++ shortDesc ++ longDescriptionPromptD ++ masterSummary ++
    longDescriptionPromptE

/-- The `getExtraSections` prompt (lines 379-391); the master summary,
itself already trimmed, ends the prompt, so the template's final `trim()`
changes nothing. -/
def extraSectionsPrompt (masterSummary : String) : String :=
  extraSectionsPromptIntro ++ masterSummary

/-- The per-chunk summaries of the corpus, as `getLongDescription` and
`getExtraSections` both compute them (chunk to 2000 characters, prompt the
model, trim each reply); `oracle` is `openai.generateText`. -/
def chunkSummaries (oracle : String → String) (combined : String) : List String :=
  (chunkString combined.data 2000).map fun ch =>
    jsTrimString (oracle (summarizeChunkPrompt (String.mk ch)))

/-- The merged master summary (trimmed model reply to the merge prompt). -/
def masterSummaryOf (oracle : String → String) (combined : String) : String :=
  jsTrimString (oracle (mergeSummariesPrompt (chunkSummaries oracle combined)))

/-- Every prompt the deck-build request sends to the remote model, in route
order: the competitor-analysis prompt over the full corpus (step 4), then
`getLongDescription`'s chunk prompts, merge prompt and final prompt (step
6), then `getExtraSections`'s chunk prompts, merge prompt and final prompt
(step 7). -/
def remotePayloads (oracle : String → String) (combined brandName shortDesc : String) :
    List String :=
  [competitorPrompt combined brandName] ++
  ((chunkString combined.data 2000).map fun ch => summarizeChunkPrompt (String.mk ch)) ++
  [mergeSummariesPrompt (chunkSummaries oracle combined),
   longDescriptionPrompt brandName shortDesc (masterSummaryOf oracle combined)] ++
  ((chunkString combined.data 2000).map fun ch => summarizeChunkPrompt (String.mk ch)) ++
  [mergeSummariesPrompt (chunkSummaries oracle combined),
   extraSectionsPrompt (masterSummaryOf oracle combined)]

/-- Modelled from the spec: the structured-data extraction request built by
`server/utils/data-extractor.js` (`extractDataTables`), a module absent
from the repository snapshot; per the spec it is a single remote request
carrying the full combined corpus and the brand name and asking for
strictly-JSON structured output. -/
def extractDataTablesPayload (combinedText brandName : String) : String × String :=
  (combinedText, brandName)

/-- `pat` occurs as a contiguous substring. -/
def occursIn (pat l : List Char) : Prop := ∃ u v, l = u ++ pat ++ v

/-- The contribution one document makes to the combined corpus on the
standard path. -/
def corpusContribution (summary : String → String) (d : FileDoc) : String :=
  if d.sensitive then "\n\n[SENSITIVE DOCUMENT SUMMARY]: " ++ summary d.text
  else "\n\n" ++ d.text

/-- Two documents that agree on everything the standard path may send to
the remote model: same sensitivity, same raw text when not sensitive, and
the same local summary when sensitive (the raw texts may differ freely). -/
def lowEquiv (summary : String → String) (d1 d2 : FileDoc) : Prop :=
  d1.sensitive = d2.sensitive ∧
  (d1.sensitive = false → d1.text = d2.text) ∧
  (d1.sensitive = true → summary d1.text = summary d2.text)


-- SEGMENT:DEF:decks

/-! ## Deck listing (server/routes/decks.js lines 1381-1396)

The GET handler sorts every stored deck by `createdAt` descending and maps
each to `{_id, brandName, deckUrl, createdAt}`. -/

/-- A stored deck record (the fields the POST handler persists, lines
1338-1353). -/
structure DeckRecord where
  id : Nat
  brandName : String
  shortDescription : String
  longDescription : String
  primaryColor : String
  secondaryColor : String
  logoUrl : String
  deckUrl : String
  chartConfigs : List PlotData
  extractedDataTables : List String
  competitorAnalysisStored : Option CompetitiveAnalysis
  createdAt : ℤ
deriving DecidableEq, Repr

/-- One entry of the GET /api/decks response. -/
structure DeckSummary where
  id : Nat
  brandName : String
  deckUrl : String
  createdAt : ℤ
deriving DecidableEq, Repr

/-- The projection of the GET handler's `map` (lines 1385-1390). -/
def deckSummary (d : DeckRecord) : DeckSummary :=
  ⟨d.id, d.brandName, d.deckUrl, d.createdAt⟩

/-- `Deck.find().sort(\x7b createdAt: -1 \x7d)` followed by the projection. -/
def listDecks (store : List DeckRecord) : List DeckSummary :=
  (stableSortDescBy (fun d => d.createdAt) store).map deckSummary


-- SEGMENT:THM:chunk

theorem chunkString_nil (n : Nat) : chunkString [] n = [] := by
  rw [chunkString]
  simp

theorem chunkString_zero (s : List Char) : chunkString s 0 = [] := by
  rw [chunkString]
  simp

theorem chunkString_cons (s : List Char) (n : Nat) (hn : 0 < n) (hs : s ≠ []) :
    chunkString s n = s.take n :: chunkString (s.drop n) n := by
  rw [chunkString]
  simp [hn, hs]

theorem chunkString_join (s : List Char) (n : Nat) (hn : 0 < n) :
    (chunkString s n).flatten = s := by
  by_cases hs : s = []
  · subst hs; simp [chunkString_nil]
  · rw [chunkString_cons s n hn hs]
    have ih : (chunkString (s.drop n) n).flatten = s.drop n :=
      chunkString_join (s.drop n) n hn
    simp [ih]
termination_by s.length
decreasing_by
  simp only [List.length_drop]
  have : 0 < s.length := List.length_pos.mpr hs
  omega

theorem chunkString_mem_length_le (s : List Char) (n : Nat) :
    ∀ c ∈ chunkString s n, c.length ≤ n := by
  intro c hc
  by_cases hn : 0 < n
  · by_cases hs : s = []
    · subst hs; simp [chunkString_nil] at hc
    · rw [chunkString_cons s n hn hs] at hc
      rw [List.mem_cons] at hc
      rcases hc with hc | hc
      · subst hc; simp
      · exact chunkString_mem_length_le (s.drop n) n c hc
  · have : n = 0 := by omega
    subst this
    simp [chunkString_zero] at hc
termination_by s.length
decreasing_by
  simp only [List.length_drop]
  have : 0 < s.length := List.length_pos.mpr hs
  omega

theorem chunkString_eq_nil_iff (s : List Char) (n : Nat) (hn : 0 < n) :
    chunkString s n = [] ↔ s = [] := by
  constructor
  · intro h
    by_contra hs
    rw [chunkString_cons s n hn hs] at h
    exact List.cons_ne_nil _ _ h
  · intro h; subst h; exact chunkString_nil n

theorem chunkString_not_last_length (s : List Char) (n : Nat) (hn : 0 < n) :
    ∀ i, i + 1 < (chunkString s n).length →
      ((chunkString s n)[i]?.map List.length) = some n := by
  intro i hi
  by_cases hs : s = []
  · subst hs; simp [chunkString_nil] at hi
  · rw [chunkString_cons s n hn hs] at hi ⊢
    match i with
    | 0 =>
      -- the tail is nonempty, so `s.drop n` is nonempty and `s.take n` is full
      simp only [List.length_cons] at hi
      have htail : chunkString (s.drop n) n ≠ [] := by
        intro h0
        rw [h0] at hi
        simp at hi
      have hdrop : s.drop n ≠ [] := by
        intro h0
        exact htail ((chunkString_eq_nil_iff _ n hn).mpr h0)
      have hlen : n < s.length := by
        by_contra hle
        exact hdrop (List.drop_eq_nil_of_le (by omega))
      simp [List.length_take]
      omega
    | i + 1 =>
      simp only [List.length_cons, Nat.add_lt_add_iff_right] at hi
      simpa using chunkString_not_last_length (s.drop n) n hn i hi
termination_by s.length
decreasing_by
  simp only [List.length_drop]
  have : 0 < s.length := List.length_pos.mpr hs
  omega

/-- C3: For every string T and every maximum chunk size S > 0 (default 2000),
`chunkString T S` is an ordered, exhaustive, non-overlapping partition of T:
the concatenation of the chunks in order is T, every chunk except possibly
the last has length exactly S, no chunk exceeds S, and the empty string
yields the empty chunk list. -/
theorem chunkString_partition (s : List Char) (n : Nat) (hn : 0 < n) :
    (chunkString s n).flatten = s ∧
    (∀ c ∈ chunkString s n, c.length ≤ n) ∧
    (∀ i, i + 1 < (chunkString s n).length →
      ((chunkString s n)[i]?.map List.length) = some n) ∧
    chunkString [] n = [] :=
  ⟨chunkString_join s n hn, chunkString_mem_length_le s n,
   chunkString_not_last_length s n hn, chunkString_nil n⟩

/-- Witness for C3 at T = "abcdefg", S = 3: the chunks are
["abc", "def", "g"]. -/
theorem chunkString_partition_witness :
    chunkString "abcdefg".data 3 = ["abc".data, "def".data, "g".data] ∧
    ((chunkString "abcdefg".data 3).flatten = "abcdefg".data ∧
     (∀ c ∈ chunkString "abcdefg".data 3, c.length ≤ 3) ∧
     (∀ i, i + 1 < (chunkString "abcdefg".data 3).length →
       ((chunkString "abcdefg".data 3)[i]?.map List.length) = some 3) ∧
     chunkString [] 3 = []) :=
  ⟨by simp [chunkString], chunkString_partition "abcdefg".data 3 (by decide)⟩


-- SEGMENT:THM:fence

theorem hasTripleBacktick_cons (a : Char) (t : List Char) :
    hasTripleBacktick (a :: t) =
      ((a = backtick && startsTwoBackticks t) || hasTripleBacktick t) := by
  match t with
  | [] => simp [hasTripleBacktick, startsTwoBackticks]
  | [x] => simp [hasTripleBacktick, startsTwoBackticks]
  | x :: y :: r => simp [hasTripleBacktick, startsTwoBackticks, Bool.and_assoc]

theorem startsTwoBackticks_cons_of_head_ne (a : Char) (t : List Char)
    (ha : a ≠ backtick) : startsTwoBackticks (a :: t) = false := by
  cases t <;> simp [startsTwoBackticks, ha]

theorem startsTwoBackticks_cons_cons_of_ne (a b : Char) (t : List Char)
    (hb : b ≠ backtick) : startsTwoBackticks (a :: b :: t) = false := by
  simp [startsTwoBackticks, hb]

theorem startsTwoBackticks_removeTriples (l : List Char)
    (h : startsTwoBackticks l = false) :
    startsTwoBackticks (removeTriples l) = false := by
  match l with
  | [] => simpa [removeTriples] using h
  | [a] => simpa [removeTriples] using h
  | [a, b] => simpa [removeTriples] using h
  | a :: b :: c :: rest =>
    simp only [startsTwoBackticks, Bool.and_eq_false_iff, decide_eq_false_iff_not] at h
    rw [removeTriples, if_neg (by tauto)]
    rcases h with h | h
    · exact startsTwoBackticks_cons_of_head_ne _ _ h
    · -- the head of `removeTriples (b :: c :: rest)` is `b`, which is not a backtick
      match rest with
      | [] =>
        simpa [removeTriples] using startsTwoBackticks_cons_cons_of_ne a b [c] h
      | d :: rest2 =>
        rw [removeTriples, if_neg (by tauto)]
        exact startsTwoBackticks_cons_cons_of_ne _ _ _ h

theorem hasTripleBacktick_removeTriples (l : List Char) :
    hasTripleBacktick (removeTriples l) = false := by
  match l with
  | [] => simp [removeTriples, hasTripleBacktick]
  | [a] => simp [removeTriples, hasTripleBacktick]
  | [a, b] => simp [removeTriples, hasTripleBacktick]
  | a :: b :: c :: rest =>
    rw [removeTriples]
    by_cases h : a = backtick ∧ b = backtick ∧ c = backtick
    · rw [if_pos h]
      exact hasTripleBacktick_removeTriples rest
    · rw [if_neg h]
      rw [hasTripleBacktick_cons]
      have ih : hasTripleBacktick (removeTriples (b :: c :: rest)) = false :=
        hasTripleBacktick_removeTriples (b :: c :: rest)
      rw [ih]
      by_cases ha : a = backtick
      · have hbc : startsTwoBackticks (b :: c :: rest) = false := by
          simp only [startsTwoBackticks, Bool.and_eq_false_iff, decide_eq_false_iff_not]
          tauto
        rw [startsTwoBackticks_removeTriples _ hbc]
        simp
      · simp [ha]
termination_by l.length

theorem hasTripleBacktick_tail (a : Char) (t : List Char)
    (h : hasTripleBacktick (a :: t) = false) : hasTripleBacktick t = false := by
  rw [hasTripleBacktick_cons] at h
  exact (Bool.or_eq_false_iff.mp h).2

theorem hasTripleBacktick_dropWhile (p : Char → Bool) (l : List Char)
    (h : hasTripleBacktick l = false) :
    hasTripleBacktick (l.dropWhile p) = false := by
  induction l with
  | nil => simpa using h
  | cons a t ih =>
    rw [List.dropWhile_cons]
    by_cases hp : p a
    · simp only [hp, if_true]
      exact ih (hasTripleBacktick_tail a t h)
    · simp only [hp, if_false]
      exact h

theorem dropTrailingWhile_cons_shape (p : Char → Bool) (t : List Char)
    (y : Char) (r : List Char) (h : dropTrailingWhile p t = y :: r) :
    ∃ t2, t = y :: t2 ∧ r = dropTrailingWhile p t2 := by
  match t with
  | [] => simp [dropTrailingWhile] at h
  | a :: t2 =>
    rw [dropTrailingWhile] at h
    by_cases hc : dropTrailingWhile p t2 = [] ∧ p a
    · simp [hc] at h
    · rw [if_neg hc] at h
      injection h with h1 h2
      exact ⟨t2, by rw [h1], h2.symm⟩

theorem startsTwoBackticks_dropTrailingWhile (p : Char → Bool) (t : List Char)
    (h : startsTwoBackticks (dropTrailingWhile p t) = true) :
    startsTwoBackticks t = true := by
  match hd : dropTrailingWhile p t with
  | [] => simp [hd, startsTwoBackticks] at h
  | [y] => simp [hd, startsTwoBackticks] at h
  | y :: z :: r =>
    obtain ⟨t2, ht2, hr⟩ := dropTrailingWhile_cons_shape p t y (z :: r) hd
    obtain ⟨t3, ht3, _⟩ := dropTrailingWhile_cons_shape p t2 z r hr.symm
    rw [hd] at h
    subst ht2 ht3
    simpa [startsTwoBackticks] using h

theorem hasTripleBacktick_dropTrailingWhile (p : Char → Bool) (l : List Char)
    (h : hasTripleBacktick l = false) :
    hasTripleBacktick (dropTrailingWhile p l) = false := by
  induction l with
  | nil => simpa [dropTrailingWhile] using h
  | cons a t ih =>
    rw [dropTrailingWhile]
    by_cases hc : dropTrailingWhile p t = [] ∧ p a
    · simp [hc, hasTripleBacktick]
    · rw [if_neg hc]
      rw [hasTripleBacktick_cons]
      have ht : hasTripleBacktick t = false := hasTripleBacktick_tail a t h
      rw [ih ht]
      by_cases ha : a = backtick
      · rw [hasTripleBacktick_cons] at h
        rcases Bool.or_eq_false_iff.mp h with ⟨h1, _⟩
        by_cases hst : startsTwoBackticks (dropTrailingWhile p t) = true
        · have := startsTwoBackticks_dropTrailingWhile p t hst
          simp [ha, this] at h1
        · simp only [Bool.not_eq_true] at hst
          simp [hst]
      · simp [ha]

theorem jsTrim_eq_dropTrailing (l : List Char) :
    jsTrim l = dropTrailingWhile jsWhitespace (l.dropWhile jsWhitespace) := by
  unfold jsTrim
  generalize l.dropWhile jsWhitespace = m
  induction m with
  | nil => simp [dropTrailingWhile]
  | cons a t ih =>
    have hrev : List.dropWhile jsWhitespace t.reverse =
        (dropTrailingWhile jsWhitespace t).reverse := by
      rw [← ih, List.reverse_reverse]
    rw [dropTrailingWhile, List.reverse_cons, List.dropWhile_append, hrev]
    by_cases he : dropTrailingWhile jsWhitespace t = []
    · rw [he]
      by_cases hpa : jsWhitespace a
      · simp [he, hpa, List.dropWhile]
      · simp [he, hpa, List.dropWhile]
    · have hne : ((dropTrailingWhile jsWhitespace t).reverse).isEmpty = false := by
        simp [he]
      rw [hne]
      simp [he, List.reverse_append]

theorem hasTripleBacktick_of_split (u v : List Char) :
    hasTripleBacktick (u ++ [backtick, backtick, backtick] ++ v) = true := by
  induction u with
  | nil => simp [hasTripleBacktick]
  | cons a t ih =>
    rw [List.cons_append, List.cons_append, hasTripleBacktick_cons]
    simp only [List.append_assoc] at ih ⊢
    rw [ih]
    simp

/-- C9: for every raw model response, the cleaned string handed to
`JSON.parse` (the ```json pass, the ``` pass, then `trim`) contains no
triple-backtick sequence: no code-fence marker survives into the text that
is parsed. -/
theorem cleanModelResponse_no_fence (s : List Char) :
    hasTripleBacktick (cleanModelResponse s) = false ∧
    ∀ u v, cleanModelResponse s ≠ u ++ [backtick, backtick, backtick] ++ v := by
  have h0 : hasTripleBacktick (removeTriples (removeJsonFence s)) = false :=
    hasTripleBacktick_removeTriples (removeJsonFence s)
  have h1 : hasTripleBacktick (cleanModelResponse s) = false := by
    unfold cleanModelResponse
    rw [jsTrim_eq_dropTrailing]
    exact hasTripleBacktick_dropTrailingWhile _ _
      (hasTripleBacktick_dropWhile _ _ h0)
  refine ⟨h1, ?_⟩
  intro u v huv
  rw [huv, hasTripleBacktick_of_split u v] at h1
  exact Bool.true_eq_false.mp h1


-- SEGMENT:THM:color

theorem srgbLin_zero : srgbLin 0 = 0 := by
  unfold srgbLin
  rw [if_pos (by norm_num)]
  norm_num

theorem srgbLin_one : srgbLin 1 = 1 := by
  unfold srgbLin
  rw [if_neg (by norm_num)]
  rw [show ((1 : ℝ) + 0.055) / 1.055 = 1 by norm_num, Real.one_rpow]

theorem relativeLuminance_black : relativeLuminance ⟨0, 0, 0⟩ = 0 := by
  unfold relativeLuminance
  norm_num [srgbLin_zero]

theorem relativeLuminance_white : relativeLuminance ⟨255, 255, 255⟩ = 1 := by
  unfold relativeLuminance
  norm_num [srgbLin_one]

theorem contrast_eval_black :
    getContrastingTextColor "#000000".data = some "#ffffff".data := by
  unfold getContrastingTextColor
  rw [show parseHex6? (stripHash "#000000".data) = some ⟨0, 0, 0⟩ from by decide]
  rw [Option.map_some', relativeLuminance_black]
  norm_num

theorem contrast_eval_white :
    getContrastingTextColor "#ffffff".data = some "#000000".data := by
  unfold getContrastingTextColor
  rw [show parseHex6? (stripHash "#ffffff".data) = some ⟨255, 255, 255⟩ from by decide]
  rw [Option.map_some', relativeLuminance_white]
  norm_num

/-- C6: on the two extreme inputs, `getContrastingTextColor` returns the
light text token `"#ffffff"` for `"#000000"` and the dark text token
`"#000000"` for `"#ffffff"`. -/
theorem getContrastingTextColor_extremes :
    getContrastingTextColor "#000000".data = some "#ffffff".data ∧
    getContrastingTextColor "#ffffff".data = some "#000000".data :=
  ⟨contrast_eval_black, contrast_eval_white⟩

/-- Counterexample to C5 as stated: at `"#ffffff"` the luminance is above
0.5 and the function returns the dark token `"#000000"`, not the light
token — the claim has the two tokens swapped. -/
theorem getContrastingTextColor_not_light_above_half :
    (0.5 : ℝ) < relativeLuminance ⟨255, 255, 255⟩ ∧
    getContrastingTextColor "#ffffff".data = some "#000000".data ∧
    "#000000".data ≠ "#ffffff".data := by
  refine ⟨?_, contrast_eval_white, by decide⟩
  rw [relativeLuminance_white]
  norm_num

/-- C5 (amended): for every 6-digit hex colour, the function computes the
relative luminance by gamma-correcting each channel with the 0.2126 /
0.7152 / 0.0722 weights and returns the dark text token `"#000000"` when
that luminance exceeds 0.5 and the light token `"#ffffff"` otherwise —
always exactly one of the two tokens. -/
theorem getContrastingTextColor_two_tokens (hex : List Char) (c : RGB24)
    (hp : parseHex6? (stripHash hex) = some c) :
    getContrastingTextColor hex =
      some (if 0.5 < relativeLuminance c then "#000000".data else "#ffffff".data) ∧
    (getContrastingTextColor hex = some "#000000".data ∨
      getContrastingTextColor hex = some "#ffffff".data) := by
  unfold getContrastingTextColor
  rw [hp, Option.map_some']
  refine ⟨rfl, ?_⟩
  by_cases hL : (0.5 : ℝ) < relativeLuminance c
  · left; rw [if_pos hL]
  · right; rw [if_neg hL]

/-- Witness for C5's amended theorem at `"#000000"`. -/
theorem getContrastingTextColor_two_tokens_witness :
    parseHex6? (stripHash "#000000".data) = some ⟨0, 0, 0⟩ ∧
    (getContrastingTextColor "#000000".data =
      some (if 0.5 < relativeLuminance ⟨0, 0, 0⟩ then "#000000".data else "#ffffff".data) ∧
    (getContrastingTextColor "#000000".data = some "#000000".data ∨
      getContrastingTextColor "#000000".data = some "#ffffff".data)) :=
  ⟨by decide, getContrastingTextColor_two_tokens "#000000".data ⟨0, 0, 0⟩ (by decide)⟩

/-- C7: the pie palette rotates the base hue by `360 / N` per segment
(reduced with the JavaScript `%`), holds saturation fixed, fills at
lightness `l - 10` with alpha 0.6 and borders at lightness `l` with alpha
1; and for `N = 3` any two generated hues are exactly 120° apart
modulo 360. -/
theorem range_map_getElem (f : Nat → HSLA) (n i : Nat) (hi : i < n) :
    ((List.range n).map f)[i]? = some (f i) := by
  rw [List.getElem?_map, List.getElem?_range hi, Option.map_some']

theorem pie_pair (x y : ℚ) (d e : ℤ) (h : x - y = (d : ℚ) + 360 * (e : ℚ)) :
    ∃ m : ℤ, jsMod x 360 - jsMod y 360 = (d : ℚ) + 360 * (m : ℚ) := by
  refine ⟨e + jsTrunc (y / 360) - jsTrunc (x / 360), ?_⟩
  unfold jsMod
  push_cast
  linear_combination h

theorem renderChart_pie_palette (hex : List Char) (rgb : RGB24)
    (hp : parseHex6? (stripHash hex) = some rgb) :
    (∀ count, renderChartPalette "pie" count hex = some (piePalette (hexToHsl rgb) count)) ∧
    (∀ count i, i < count →
      (piePalette (hexToHsl rgb) count).1[i]? =
        some (hslToRgba (jsMod (((hexToHsl rgb).h : ℚ) + ((i : ℚ) * 360) / (count : ℚ)) 360)
          ((hexToHsl rgb).s : ℚ) (((hexToHsl rgb).l : ℚ) - 10) (6/10)) ∧
      (piePalette (hexToHsl rgb) count).2[i]? =
        some (hslToRgba (jsMod (((hexToHsl rgb).h : ℚ) + ((i : ℚ) * 360) / (count : ℚ)) 360)
          ((hexToHsl rgb).s : ℚ) ((hexToHsl rgb).l : ℚ) 1)) ∧
    (∀ j k : Nat, j < 3 → k < 3 → j ≠ k →
      ∃ d : ℤ, (d = 120 ∨ d = -120) ∧
        ∃ m : ℤ,
          jsMod (((hexToHsl rgb).h : ℚ) + ((j : ℚ) * 360) / ((3 : Nat) : ℚ)) 360 -
            jsMod (((hexToHsl rgb).h : ℚ) + ((k : ℚ) * 360) / ((3 : Nat) : ℚ)) 360 =
            (d : ℚ) + 360 * (m : ℚ)) := by
  refine ⟨?_, ?_, ?_⟩
  · intro count
    unfold renderChartPalette
    rw [hp, Option.map_some']
    simp
  · intro count i hi
    unfold piePalette
    exact ⟨range_map_getElem _ count i hi, range_map_getElem _ count i hi⟩
  · intro j k hj hk hne
    interval_cases j <;> interval_cases k
    · exact absurd rfl hne
    · exact ⟨-120, Or.inr rfl, pie_pair _ _ (-120) 0 (by push_cast; ring)⟩
    · exact ⟨120, Or.inl rfl, pie_pair _ _ 120 (-1) (by push_cast; ring)⟩
    · exact ⟨120, Or.inl rfl, pie_pair _ _ 120 0 (by push_cast; ring)⟩
    · exact absurd rfl hne
    · exact ⟨-120, Or.inr rfl, pie_pair _ _ (-120) 0 (by push_cast; ring)⟩
    · exact ⟨-120, Or.inr rfl, pie_pair _ _ (-120) 1 (by push_cast; ring)⟩
    · exact ⟨120, Or.inl rfl, pie_pair _ _ 120 0 (by push_cast; ring)⟩
    · exact absurd rfl hne

/-- Witness for C7 at primary colour `"#ff0000"` (pure red). -/
theorem renderChart_pie_palette_witness :
    parseHex6? (stripHash "#ff0000".data) = some ⟨255, 0, 0⟩ ∧
    ((∀ count, renderChartPalette "pie" count "#ff0000".data =
        some (piePalette (hexToHsl ⟨255, 0, 0⟩) count)) ∧
    (∀ count i, i < count →
      (piePalette (hexToHsl ⟨255, 0, 0⟩) count).1[i]? =
        some (hslToRgba
          (jsMod (((hexToHsl ⟨255, 0, 0⟩).h : ℚ) + ((i : ℚ) * 360) / (count : ℚ)) 360)
          ((hexToHsl ⟨255, 0, 0⟩).s : ℚ) (((hexToHsl ⟨255, 0, 0⟩).l : ℚ) - 10) (6/10)) ∧
      (piePalette (hexToHsl ⟨255, 0, 0⟩) count).2[i]? =
        some (hslToRgba
          (jsMod (((hexToHsl ⟨255, 0, 0⟩).h : ℚ) + ((i : ℚ) * 360) / (count : ℚ)) 360)
          ((hexToHsl ⟨255, 0, 0⟩).s : ℚ) ((hexToHsl ⟨255, 0, 0⟩).l : ℚ) 1)) ∧
    (∀ j k : Nat, j < 3 → k < 3 → j ≠ k →
      ∃ d : ℤ, (d = 120 ∨ d = -120) ∧
        ∃ m : ℤ,
          jsMod (((hexToHsl ⟨255, 0, 0⟩).h : ℚ) + ((j : ℚ) * 360) / ((3 : Nat) : ℚ)) 360 -
            jsMod (((hexToHsl ⟨255, 0, 0⟩).h : ℚ) + ((k : ℚ) * 360) / ((3 : Nat) : ℚ)) 360 =
            (d : ℚ) + 360 * (m : ℚ))) :=
  ⟨by decide, renderChart_pie_palette "#ff0000".data ⟨255, 0, 0⟩ (by decide)⟩


-- SEGMENT:THM:colorbar

theorem hexDigit_le (c : Char) (d : Nat) (h : hexDigit? c = some d) : d ≤ 15 := by
  unfold hexDigit? at h
  split_ifs at h with h1 h2 h3 <;> injection h with h
  · have h9 : c.toNat ≤ 57 := by
      have h2 := h1.2
      rw [Char.le_def] at h2
      exact h2
    have e0 : Char.toNat '0' = 48 := rfl
    omega
  · have h9 : c.toNat ≤ 102 := by
      have h3 := h2.2
      rw [Char.le_def] at h3
      exact h3
    have e0 : Char.toNat 'a' = 97 := rfl
    omega
  · have h9 : c.toNat ≤ 70 := by
      have h4 := h3.2
      rw [Char.le_def] at h4
      exact h4
    have e0 : Char.toNat 'A' = 65 := rfl
    omega

theorem hexPairVal_le (c1 c2 : Char) (n : Nat) (h : hexPairVal? c1 c2 = some n) :
    n ≤ 255 := by
  unfold hexPairVal? at h
  cases h1 : hexDigit? c1 with
  | none => rw [h1] at h; exact absurd h (by simp)
  | some d1 =>
    cases h2 : hexDigit? c2 with
    | none => rw [h1, h2] at h; exact absurd h (by simp)
    | some d2 =>
      rw [h1, h2] at h
      have e : 16 * d1 + d2 = n := by injection h
      have b1 := hexDigit_le c1 d1 h1
      have b2 := hexDigit_le c2 d2 h2
      omega

theorem parseHex6_bounds (l : List Char) (rgb : RGB24)
    (h : parseHex6? l = some rgb) : rgb.r ≤ 255 ∧ rgb.g ≤ 255 ∧ rgb.b ≤ 255 := by
  match l with
  | [] => simp [parseHex6?] at h
  | [_] => simp [parseHex6?] at h
  | [_, _] => simp [parseHex6?] at h
  | [_, _, _] => simp [parseHex6?] at h
  | [_, _, _, _] => simp [parseHex6?] at h
  | [_, _, _, _, _] => simp [parseHex6?] at h
  | _ :: _ :: _ :: _ :: _ :: _ :: _ :: _ => simp [parseHex6?] at h
  | [c1, c2, c3, c4, c5, c6] =>
    simp only [parseHex6?] at h
    cases h1 : hexPairVal? c1 c2 with
    | none => rw [h1] at h; exact absurd h (by simp)
    | some r =>
      cases h2 : hexPairVal? c3 c4 with
      | none => rw [h1, h2] at h; exact absurd h (by simp)
      | some g =>
        cases h3 : hexPairVal? c5 c6 with
        | none => rw [h1, h2, h3] at h; exact absurd h (by simp)
        | some b =>
          rw [h1, h2, h3] at h
          have e : RGB24.mk r g b = rgb := by
            simpa [Option.bind] using h
          subst e
          exact ⟨hexPairVal_le c1 c2 r h1, hexPairVal_le c3 c4 g h2, hexPairVal_le c5 c6 b h3⟩

theorem jsRound_bounds (x : ℚ) (a b : ℤ) (hl : (a : ℚ) ≤ x) (hr : x ≤ (b : ℚ)) :
    a ≤ jsRound x ∧ jsRound x ≤ b := by
  unfold jsRound
  constructor
  · have : (a : ℚ) ≤ x + 1/2 := by linarith
    exact Int.le_floor.mpr this
  · have : x + 1/2 < (b : ℚ) + 1 := by linarith
    have h2 : ⌊x + 1/2⌋ < b + 1 := Int.floor_lt.mpr (by push_cast; linarith)
    omega

theorem hexToHsl_l_bounds (c : RGB24)
    (hb : c.r ≤ 255 ∧ c.g ≤ 255 ∧ c.b ≤ 255) :
    0 ≤ (hexToHsl c).l ∧ (hexToHsl c).l ≤ 100 := by
  have hr0 : (0 : ℚ) ≤ (c.r : ℚ) / 255 := by positivity
  have hg0 : (0 : ℚ) ≤ (c.g : ℚ) / 255 := by positivity
  have hb0 : (0 : ℚ) ≤ (c.b : ℚ) / 255 := by positivity
  have hr1 : (c.r : ℚ) / 255 ≤ 1 := by
    rw [div_le_one (by norm_num)]
    exact_mod_cast Nat.cast_le.mpr hb.1
  have hg1 : (c.g : ℚ) / 255 ≤ 1 := by
    rw [div_le_one (by norm_num)]
    exact_mod_cast Nat.cast_le.mpr hb.2.1
  have hb1 : (c.b : ℚ) / 255 ≤ 1 := by
    rw [div_le_one (by norm_num)]
    exact_mod_cast Nat.cast_le.mpr hb.2.2
  have hmx : max ((c.r : ℚ) / 255) (max ((c.g : ℚ) / 255) ((c.b : ℚ) / 255)) ≤ 1 :=
    max_le hr1 (max_le hg1 hb1)
  have hmn : (0 : ℚ) ≤ min ((c.r : ℚ) / 255) (min ((c.g : ℚ) / 255) ((c.b : ℚ) / 255)) :=
    le_min hr0 (le_min hg0 hb0)
  have hmn1 : min ((c.r : ℚ) / 255) (min ((c.g : ℚ) / 255) ((c.b : ℚ) / 255)) ≤ 1 :=
    min_le_of_left_le hr1
  have hmx0 : (0 : ℚ) ≤ max ((c.r : ℚ) / 255) (max ((c.g : ℚ) / 255) ((c.b : ℚ) / 255)) :=
    le_max_of_le_left hr0
  have hl0 : (0 : ℚ) ≤
      (max ((c.r : ℚ) / 255) (max ((c.g : ℚ) / 255) ((c.b : ℚ) / 255)) +
        min ((c.r : ℚ) / 255) (min ((c.g : ℚ) / 255) ((c.b : ℚ) / 255))) / 2 * 100 := by
    positivity
  have hl1 :
      (max ((c.r : ℚ) / 255) (max ((c.g : ℚ) / 255) ((c.b : ℚ) / 255)) +
        min ((c.r : ℚ) / 255) (min ((c.g : ℚ) / 255) ((c.b : ℚ) / 255))) / 2 * 100 ≤ 100 := by
    nlinarith
  have key : ∀ x : ℚ, (0 : ℚ) ≤ x → x ≤ 100 → 0 ≤ jsRound x ∧ jsRound x ≤ 100 := by
    intro x h1 h2
    have := jsRound_bounds x 0 100 (by exact_mod_cast h1) (by exact_mod_cast h2)
    exact this
  unfold hexToHsl
  dsimp only
  split_ifs <;> exact key _ hl0 hl1

/-- C8: the bar/line palette holds hue and saturation fixed; the border
lightness of series `i` is the rounded linear interpolation from
`min(l+10, 90)` at `i = 0` down to `max(l-20, 10)` at `i = N-1`; fills sit
5 lightness units below their border, with fill alpha 0.6 and border
alpha 1. -/
theorem renderChart_bar_palette (hex : List Char) (rgb : RGB24)
    (hp : parseHex6? (stripHash hex) = some rgb) :
    (∀ count, renderChartPalette "bar" count hex = some (barPalette (hexToHsl rgb) count) ∧
      renderChartPalette "line" count hex = some (barPalette (hexToHsl rgb) count)) ∧
    (∀ count i, i < count →
      (barPalette (hexToHsl rgb) count).1[i]? =
        some (hslToRgba ((hexToHsl rgb).h : ℚ) ((hexToHsl rgb).s : ℚ)
          ((barCurrL (hexToHsl rgb).l count i : ℚ) - 5) (6/10)) ∧
      (barPalette (hexToHsl rgb) count).2[i]? =
        some (hslToRgba ((hexToHsl rgb).h : ℚ) ((hexToHsl rgb).s : ℚ)
          ((barCurrL (hexToHsl rgb).l count i : ℚ)) 1)) ∧
    (∀ count, barCurrL (hexToHsl rgb).l count 0 = barMaxLight (hexToHsl rgb).l) ∧
    (∀ count, 1 < count →
      barCurrL (hexToHsl rgb).l count (count - 1) = barMinLight (hexToHsl rgb).l) ∧
    barMinLight (hexToHsl rgb).l ≤ barMaxLight (hexToHsl rgb).l := by
  refine ⟨?_, ?_, ?_, ?_, ?_⟩
  · intro count
    constructor <;>
      · unfold renderChartPalette
        rw [hp, Option.map_some']
        simp
  · intro count i hi
    unfold barPalette
    exact ⟨range_map_getElem _ count i hi, range_map_getElem _ count i hi⟩
  · intro count
    unfold barCurrL jsRound
    norm_num
  · intro count hcount
    unfold barCurrL barStep
    rw [if_pos hcount]
    have hne : ((count : ℚ) - 1) ≠ 0 := by
      have : (1 : ℚ) < (count : ℚ) := by exact_mod_cast hcount
      linarith
    have hcast : ((count - 1 : Nat) : ℚ) = (count : ℚ) - 1 := by
      have : 1 ≤ count := by omega
      push_cast [this]
      ring
    rw [hcast, div_mul_cancel₀ _ hne]
    unfold jsRound
    rw [show (barMaxLight (hexToHsl rgb).l : ℚ) -
        ((barMaxLight (hexToHsl rgb).l : ℚ) - (barMinLight (hexToHsl rgb).l : ℚ)) =
        (barMinLight (hexToHsl rgb).l : ℚ) by ring]
    norm_num
  · have hb := parseHex6_bounds (stripHash hex) rgb hp
    have hl := hexToHsl_l_bounds rgb hb
    unfold barMinLight barMaxLight
    omega

/-- Witness for C8 at primary colour `"#336699"`. -/
theorem renderChart_bar_palette_witness :
    parseHex6? (stripHash "#336699".data) = some ⟨51, 102, 153⟩ ∧
    ((∀ count, renderChartPalette "bar" count "#336699".data =
        some (barPalette (hexToHsl ⟨51, 102, 153⟩) count) ∧
      renderChartPalette "line" count "#336699".data =
        some (barPalette (hexToHsl ⟨51, 102, 153⟩) count)) ∧
    (∀ count i, i < count →
      (barPalette (hexToHsl ⟨51, 102, 153⟩) count).1[i]? =
        some (hslToRgba ((hexToHsl ⟨51, 102, 153⟩).h : ℚ) ((hexToHsl ⟨51, 102, 153⟩).s : ℚ)
          ((barCurrL (hexToHsl ⟨51, 102, 153⟩).l count i : ℚ) - 5) (6/10)) ∧
      (barPalette (hexToHsl ⟨51, 102, 153⟩) count).2[i]? =
        some (hslToRgba ((hexToHsl ⟨51, 102, 153⟩).h : ℚ) ((hexToHsl ⟨51, 102, 153⟩).s : ℚ)
          ((barCurrL (hexToHsl ⟨51, 102, 153⟩).l count i : ℚ)) 1)) ∧
    (∀ count, barCurrL (hexToHsl ⟨51, 102, 153⟩).l count 0 =
      barMaxLight (hexToHsl ⟨51, 102, 153⟩).l) ∧
    (∀ count, 1 < count →
      barCurrL (hexToHsl ⟨51, 102, 153⟩).l count (count - 1) =
        barMinLight (hexToHsl ⟨51, 102, 153⟩).l) ∧
    barMinLight (hexToHsl ⟨51, 102, 153⟩).l ≤ barMaxLight (hexToHsl ⟨51, 102, 153⟩).l) :=
  ⟨by decide, renderChart_bar_palette "#336699".data ⟨51, 102, 153⟩ (by decide)⟩


-- SEGMENT:THM:local

theorem processAttempts_zero (oracle : Nat → AttemptOutcome) (attempt : Nat)
    (waits : List Nat) (lastErr : Option (List Char)) :
    processAttempts oracle 0 attempt waits lastErr =
      (none, attempt - 1, waits.reverse, lastErr) := by
  simp [processAttempts]

theorem processAttempts_failure (oracle : Nat → AttemptOutcome) (rem attempt : Nat)
    (waits : List Nat) (lastErr : Option (List Char)) (msg : List Char)
    (h : oracle attempt = .failure msg) :
    processAttempts oracle (rem + 1) attempt waits lastErr =
      processAttempts oracle rem (attempt + 1)
        (if 0 < rem then backoffWait attempt :: waits else waits) (some msg) := by
  simp only [processAttempts, h]

theorem processSensitiveDocument_allFail (text : List Char)
    (oracle : Nat → AttemptOutcome) (rng : Nat → ℚ) (clock : List Char)
    (m1 m2 m3 : List Char)
    (h1 : oracle 1 = .failure m1) (h2 : oracle 2 = .failure m2)
    (h3 : oracle 3 = .failure m3) :
    processSensitiveDocument text oracle rng clock =
      ⟨getFallbackResult text (some m3) rng clock, 3, [1000, 2000]⟩ := by
  have e1 : processAttempts oracle 3 1 [] none =
      processAttempts oracle 2 2 [1000] (some m1) := by
    have e := processAttempts_failure oracle 2 1 [] none m1 h1
    simpa [backoffWait] using e
  have e2 : processAttempts oracle 2 2 [1000] (some m1) =
      processAttempts oracle 1 3 [2000, 1000] (some m2) := by
    have e := processAttempts_failure oracle 1 2 [1000] (some m1) m2 h2
    simpa [backoffWait] using e
  have e3 : processAttempts oracle 1 3 [2000, 1000] (some m2) =
      processAttempts oracle 0 4 [2000, 1000] (some m3) := by
    have e := processAttempts_failure oracle 0 3 [2000, 1000] (some m2) m3 h3
    simpa [backoffWait] using e
  have echain : processAttempts oracle 3 1 [] none =
      (none, 3, [1000, 2000], some m3) := by
    rw [e1, e2, e3, processAttempts_zero]
    norm_num
  unfold processSensitiveDocument
  rw [echain]

theorem getFallbackResult_plotData (text : List Char) (e : Option (List Char))
    (rng : Nat → ℚ) (clock : List Char) :
    (getFallbackResult text e rng clock).plotData =
      generatePlotDataFallback (extractKeywordsFallback text 10)
        (extractMetricsFallback text) rng := rfl

theorem generatePlotDataFallback_eval4 (K M : List (List Char)) (rng : Nat → ℚ)
    (hK : K.length = 4) (hM : M = []) :
    generatePlotDataFallback K M rng =
      [⟨"Key Topics Frequency".data, "bar".data, K.take 5,
        [⌊rng 0 * 20⌋ + 5, ⌊rng 1 * 20⌋ + 5, ⌊rng 2 * 20⌋ + 5, ⌊rng 3 * 20⌋ + 5]⟩] := by
  unfold generatePlotDataFallback
  rw [if_pos (by omega), hM]
  have hlen : (K.take 5).length = 4 := by
    rw [List.length_take, hK]
    decide
  rw [hlen, show List.range 4 = [0, 1, 2, 3] from by decide]
  simp

/-- Counterexample to C4 as stated: with the backend failing on every
attempt, the run on the same text, same failures, same clock differs
between two `Math.random` streams — the fallback's keyword-frequency chart
heights are random, so the heuristic result is not deterministic. -/
theorem processSensitiveDocument_not_deterministic :
    processSensitiveDocument "alpha beta gamma delta".data
        (fun _ => .failure "ECONNREFUSED".data) (fun _ => 0)
        "2024-01-01T00:00:00.000Z".data ≠
      processSensitiveDocument "alpha beta gamma delta".data
        (fun _ => .failure "ECONNREFUSED".data) (fun _ => 1/2)
        "2024-01-01T00:00:00.000Z".data := by
  intro heq
  rw [processSensitiveDocument_allFail _ _ _ _ _ _ _ rfl rfl rfl,
    processSensitiveDocument_allFail _ _ _ _ _ _ _ rfl rfl rfl] at heq
  have h1 : (getFallbackResult "alpha beta gamma delta".data
      (some "ECONNREFUSED".data) (fun _ => 0) "2024-01-01T00:00:00.000Z".data).plotData =
      (getFallbackResult "alpha beta gamma delta".data
      (some "ECONNREFUSED".data) (fun _ => 1/2) "2024-01-01T00:00:00.000Z".data).plotData := by
    rw [show (getFallbackResult "alpha beta gamma delta".data
      (some "ECONNREFUSED".data) (fun _ => 0) "2024-01-01T00:00:00.000Z".data) =
      (getFallbackResult "alpha beta gamma delta".data
      (some "ECONNREFUSED".data) (fun _ => (1:ℚ)/2) "2024-01-01T00:00:00.000Z".data) from
      congrArg RunLog.result heq]
  rw [getFallbackResult_plotData, getFallbackResult_plotData,
    generatePlotDataFallback_eval4 _ _ _ (by decide) (by decide),
    generatePlotDataFallback_eval4 _ _ _ (by decide) (by decide)] at h1
  have h2 := congrArg (fun l : List PlotData => l.map PlotData.values) h1
  simp only [List.map_cons, List.map_nil, List.cons.injEq, and_true] at h2
  norm_num at h2
/-- C4 (amended): when the local AI-service call fails on all of the three
configured attempts, `processSensitiveDocument` makes exactly 3 attempts,
sleeps `min(1000 * attempt, 5000)` (1 s then 2 s, always at most 5 s)
between them, and resolves — instead of throwing — with
`getFallbackResult`, whose summary (truncation-based), keywords
(frequency-based), metrics (regex-scraped) and insights are deterministic
functions of the text; only the keyword-chart heights come from
`Math.random`. -/
theorem processSensitiveDocument_fallback (text : List Char)
    (oracle : Nat → AttemptOutcome) (rng : Nat → ℚ) (clock : List Char)
    (m1 m2 m3 : List Char)
    (h1 : oracle 1 = .failure m1) (h2 : oracle 2 = .failure m2)
    (h3 : oracle 3 = .failure m3) :
    processSensitiveDocument text oracle rng clock =
      ⟨getFallbackResult text (some m3) rng clock, 3, [1000, 2000]⟩ ∧
    (∀ k : Nat, backoffWait k ≤ 5000) ∧
    backoffWait 1 = 1000 ∧ backoffWait 2 = 2000 ∧
    (getFallbackResult text (some m3) rng clock).summary = getSummaryFallback text 300 ∧
    (getFallbackResult text (some m3) rng clock).keywords = extractKeywordsFallback text 10 ∧
    (getFallbackResult text (some m3) rng clock).metrics = extractMetricsFallback text ∧
    (getFallbackResult text (some m3) rng clock).insights =
      generateInsightsFallback (extractKeywordsFallback text 10) (extractMetricsFallback text) ∧
    (getFallbackResult text (some m3) rng clock).fallback = true := by
  refine ⟨processSensitiveDocument_allFail text oracle rng clock m1 m2 m3 h1 h2 h3,
    fun k => ?_, rfl, rfl, rfl, rfl, rfl, rfl, rfl⟩
  unfold backoffWait
  omega

/-- Witness for C4's amended theorem: a concrete all-failing oracle. -/
theorem processSensitiveDocument_fallback_witness :
    ((fun _ : Nat => AttemptOutcome.failure "ECONNREFUSED".data) 1 =
      AttemptOutcome.failure "ECONNREFUSED".data) ∧
    (processSensitiveDocument "alpha beta".data
        (fun _ => .failure "ECONNREFUSED".data) (fun _ => 0) "T".data =
      ⟨getFallbackResult "alpha beta".data (some "ECONNREFUSED".data) (fun _ => 0) "T".data,
        3, [1000, 2000]⟩ ∧
    (∀ k : Nat, backoffWait k ≤ 5000) ∧
    backoffWait 1 = 1000 ∧ backoffWait 2 = 2000 ∧
    (getFallbackResult "alpha beta".data (some "ECONNREFUSED".data)
        (fun _ => 0) "T".data).summary = getSummaryFallback "alpha beta".data 300 ∧
    (getFallbackResult "alpha beta".data (some "ECONNREFUSED".data)
        (fun _ => 0) "T".data).keywords = extractKeywordsFallback "alpha beta".data 10 ∧
    (getFallbackResult "alpha beta".data (some "ECONNREFUSED".data)
        (fun _ => 0) "T".data).metrics = extractMetricsFallback "alpha beta".data ∧
    (getFallbackResult "alpha beta".data (some "ECONNREFUSED".data)
        (fun _ => 0) "T".data).insights =
      generateInsightsFallback (extractKeywordsFallback "alpha beta".data 10)
        (extractMetricsFallback "alpha beta".data) ∧
    (getFallbackResult "alpha beta".data (some "ECONNREFUSED".data)
        (fun _ => 0) "T".data).fallback = true) :=
  ⟨rfl, processSensitiveDocument_fallback "alpha beta".data
    (fun _ => .failure "ECONNREFUSED".data) (fun _ => 0) "T".data
    "ECONNREFUSED".data "ECONNREFUSED".data "ECONNREFUSED".data rfl rfl rfl⟩

-- SEGMENT:THM:competitor

/-- C2 evaluated at the failing inputs (code bug): when the model call
fails or the cleaned response does not parse as JSON, the `catch` block's
logging line reads the out-of-scope `responseRaw`, so
`getCompetitorAnalysis` throws a ReferenceError instead of returning
`fallbackCompetitorAnalysis`, and the caller stores `null` — exactly the
absent analysis the claim rules out.  Success still parses the cleaned
response. -/
theorem getCompetitorAnalysis_throws_on_failure :
    getCompetitorAnalysis (fun _ => none) (.ok "not json".data) =
      .thrown responseRawReferenceError ∧
    getCompetitorAnalysis (fun _ => none) (.error "ETIMEDOUT".data) =
      .thrown responseRawReferenceError ∧
    competitorAnalysisStage (fun _ => none) (.ok "not json".data) = none ∧
    competitorAnalysisStage (fun _ => none) (.error "ETIMEDOUT".data) = none ∧
    (∀ parseJson : List Char → Option CompetitiveAnalysis, ∀ e : List Char,
      getCompetitorAnalysis parseJson (.error e) = .thrown responseRawReferenceError) ∧
    (∀ parseJson r, parseJson (cleanModelResponse r) = none →
      getCompetitorAnalysis parseJson (.ok r) = .thrown responseRawReferenceError) ∧
    (∀ parseJson r a, parseJson (cleanModelResponse r) = some a →
      getCompetitorAnalysis parseJson (.ok r) = .ok a) ∧
    JsOutcome.thrown (α := CompetitiveAnalysis) responseRawReferenceError ≠
      .ok fallbackCompetitorAnalysis := by
  refine ⟨rfl, rfl, rfl, rfl, fun p e => rfl, ?_, ?_, by simp⟩
  · intro p r h
    simp [getCompetitorAnalysis, h]
  · intro p r a h
    simp [getCompetitorAnalysis, h]

-- SEGMENT:THM:router

theorem occursIn_trans (a b c : List Char) (h1 : occursIn a b) (h2 : occursIn b c) :
    occursIn a c := by
  obtain ⟨u1, v1, e1⟩ := h1
  obtain ⟨u2, v2, e2⟩ := h2
  exact ⟨u2 ++ u1, v1 ++ v2, by rw [e2, e1]; simp [List.append_assoc]⟩

theorem competitorPrompt_contains_corpus (c b : String) :
    occursIn c.data (competitorPrompt c b).data := by
  refine ⟨(competitorPromptIntro ++ b ++ competitorPromptDocHeader).data,
    (competitorPromptTaskA ++ b ++ competitorPromptTaskB).data, ?_⟩
  unfold competitorPrompt
  simp [String.data_append, List.append_assoc]

/-- Counterexample to C1 as stated: a request whose aggregate hint says "no
sensitive files" takes the fast path, so a document whose sensitivity flag
IS set has its raw extracted text folded into the corpus and hence into the
competitor-analysis prompt — the first payload sent to the remote model. -/
theorem sensitive_fast_path_leaks_raw_text :
    (FileDoc.mk "report.txt" "TOPSECRET-FIGURES" true).sensitive = true ∧
    occursIn "TOPSECRET-FIGURES".data
      (competitorPrompt
        (buildCombinedText false [⟨"report.txt", "TOPSECRET-FIGURES", true⟩]
          (fun _ => "[local summary]")) "Acme").data ∧
    (remotePayloads (fun _ => "ok")
        (buildCombinedText false [⟨"report.txt", "TOPSECRET-FIGURES", true⟩]
          (fun _ => "[local summary]")) "Acme" "desc").head? =
      some (competitorPrompt
        (buildCombinedText false [⟨"report.txt", "TOPSECRET-FIGURES", true⟩]
          (fun _ => "[local summary]")) "Acme") := by
  refine ⟨rfl, ?_, rfl⟩
  have hc : buildCombinedText false [⟨"report.txt", "TOPSECRET-FIGURES", true⟩]
      (fun _ => "[local summary]") = ("" ++ "\n\n") ++ "TOPSECRET-FIGURES" := rfl
  refine occursIn_trans _ _ _ ?_ (competitorPrompt_contains_corpus _ "Acme")
  rw [hc]
  exact ⟨("" ++ "\n\n").data, [], by simp [String.data_append]⟩

theorem corpusContribution_step (summary : String → String) (acc : String) (d : FileDoc) :
    (if d.sensitive then
        acc ++ "\n\n[SENSITIVE DOCUMENT SUMMARY]: " ++ summary d.text
      else acc ++ "\n\n" ++ d.text) =
      acc ++ corpusContribution summary d := by
  unfold corpusContribution
  by_cases hd : d.sensitive <;> simp [hd, String.append_assoc]

theorem corpusContribution_lowEquiv (summary : String → String) (d1 d2 : FileDoc)
    (h : lowEquiv summary d1 d2) :
    corpusContribution summary d1 = corpusContribution summary d2 := by
  obtain ⟨hs, hpub, hsum⟩ := h
  unfold corpusContribution
  by_cases hd : d1.sensitive = true
  · rw [if_pos hd, if_pos (by rw [← hs]; exact hd), hsum hd]
  · have hd1 : d1.sensitive = false := by
      cases hb : d1.sensitive
      · rfl
      · exact absurd hb hd
    rw [if_neg hd, if_neg (by rw [← hs]; exact hd), hpub hd1]

/-- C1 (amended): on the standard path (the aggregate hint does not claim
"no sensitive files"), the combined corpus — and with it every prompt the
remote model receives, and the extraction request — depends on a sensitive
document only through its locally produced summary: two batches that agree
on sensitivity flags, on non-sensitive raw texts and on the local
summaries of sensitive texts produce identical remote payloads, whatever
the sensitive raw texts are; and each sensitive document's contribution to
the corpus is the marked local summary. -/
theorem standardPath_noninterference (summary : String → String)
    (docs₁ docs₂ : List FileDoc) (hequiv : List.Forall₂ (lowEquiv summary) docs₁ docs₂)
    (brand shortDesc : String) (oracle : String → String) :
    buildCombinedText true docs₁ summary = buildCombinedText true docs₂ summary ∧
    remotePayloads oracle (buildCombinedText true docs₁ summary) brand shortDesc =
      remotePayloads oracle (buildCombinedText true docs₂ summary) brand shortDesc ∧
    extractDataTablesPayload (buildCombinedText true docs₁ summary) brand =
      extractDataTablesPayload (buildCombinedText true docs₂ summary) brand ∧
    (∀ docs : List FileDoc, buildCombinedText true docs summary =
      docs.foldl (fun acc d => acc ++ corpusContribution summary d) "") := by
  have hfold : ∀ acc, docs₁.foldl (fun acc d =>
      if d.sensitive then acc ++ "\n\n[SENSITIVE DOCUMENT SUMMARY]: " ++ summary d.text
      else acc ++ "\n\n" ++ d.text) acc = docs₂.foldl (fun acc d =>
      if d.sensitive then acc ++ "\n\n[SENSITIVE DOCUMENT SUMMARY]: " ++ summary d.text
      else acc ++ "\n\n" ++ d.text) acc := by
    induction hequiv with
    | nil => intro acc; rfl
    | cons hd htl ih =>
      intro acc
      simp only [List.foldl_cons]
      rw [corpusContribution_step, corpusContribution_step,
        corpusContribution_lowEquiv summary _ _ hd]
      exact ih _
  have hcomb : buildCombinedText true docs₁ summary = buildCombinedText true docs₂ summary := by
    unfold buildCombinedText
    simpa using hfold ""
  refine ⟨hcomb, by rw [hcomb], by rw [hcomb], ?_⟩
  intro docs
  unfold buildCombinedText
  rw [if_neg (by simp)]
  congr 1
  funext acc d
  exact corpusContribution_step summary acc d

theorem c1_witness_equiv :
    List.Forall₂ (lowEquiv (fun _ => "[s]"))
      [⟨"f.txt", "SECRET-A", true⟩, ⟨"g.txt", "public text", false⟩]
      [⟨"f.txt", "SECRET-B", true⟩, ⟨"g.txt", "public text", false⟩] := by
  refine List.Forall₂.cons ⟨rfl, ?_, ?_⟩ (List.Forall₂.cons ⟨rfl, ?_, ?_⟩ List.Forall₂.nil)
  · intro h; simp at h
  · intro h; rfl
  · intro h; rfl
  · intro h; simp at h

/-- Witness for C1's amended theorem: two concrete two-document batches
that differ only in the sensitive document's raw text. -/
theorem standardPath_noninterference_witness :
    List.Forall₂ (lowEquiv (fun _ => "[s]"))
      [⟨"f.txt", "SECRET-A", true⟩, ⟨"g.txt", "public text", false⟩]
      [⟨"f.txt", "SECRET-B", true⟩, ⟨"g.txt", "public text", false⟩] ∧
    (buildCombinedText true [⟨"f.txt", "SECRET-A", true⟩, ⟨"g.txt", "public text", false⟩]
        (fun _ => "[s]") =
      buildCombinedText true [⟨"f.txt", "SECRET-B", true⟩, ⟨"g.txt", "public text", false⟩]
        (fun _ => "[s]") ∧
    remotePayloads (fun _ => "reply")
        (buildCombinedText true [⟨"f.txt", "SECRET-A", true⟩, ⟨"g.txt", "public text", false⟩]
          (fun _ => "[s]")) "Acme" "desc" =
      remotePayloads (fun _ => "reply")
        (buildCombinedText true [⟨"f.txt", "SECRET-B", true⟩, ⟨"g.txt", "public text", false⟩]
          (fun _ => "[s]")) "Acme" "desc" ∧
    extractDataTablesPayload
        (buildCombinedText true [⟨"f.txt", "SECRET-A", true⟩, ⟨"g.txt", "public text", false⟩]
          (fun _ => "[s]")) "Acme" =
      extractDataTablesPayload
        (buildCombinedText true [⟨"f.txt", "SECRET-B", true⟩, ⟨"g.txt", "public text", false⟩]
          (fun _ => "[s]")) "Acme" ∧
    (∀ docs : List FileDoc, buildCombinedText true docs (fun _ => "[s]") =
      docs.foldl (fun acc d => acc ++ corpusContribution (fun _ => "[s]") d) "")) :=
  ⟨c1_witness_equiv,
   standardPath_noninterference (fun _ => "[s]")
    [⟨"f.txt", "SECRET-A", true⟩, ⟨"g.txt", "public text", false⟩]
    [⟨"f.txt", "SECRET-B", true⟩, ⟨"g.txt", "public text", false⟩]
    c1_witness_equiv "Acme" "desc" (fun _ => "reply")⟩

-- SEGMENT:THM:decks

theorem insertDescBy_perm {α : Type} (key : α → ℤ) (x : α) (l : List α) :
    List.Perm (insertDescBy key x l) (x :: l) := by
  induction l with
  | nil => exact List.Perm.refl _
  | cons y ys ih =>
    unfold insertDescBy
    by_cases hc : key x < key y
    · rw [if_pos hc]
      exact (ih.cons y).trans (List.Perm.swap x y ys)
    · rw [if_neg hc]

theorem stableSortDescBy_perm {α : Type} (key : α → ℤ) (l : List α) :
    List.Perm (stableSortDescBy key l) l := by
  induction l with
  | nil => exact List.Perm.refl _
  | cons x xs ih =>
    unfold stableSortDescBy
    exact (insertDescBy_perm key x (stableSortDescBy key xs)).trans (ih.cons x)

theorem insertDescBy_pairwise {α : Type} (key : α → ℤ) (x : α) (l : List α)
    (h : List.Pairwise (fun a b => key b ≤ key a) l) :
    List.Pairwise (fun a b => key b ≤ key a) (insertDescBy key x l) := by
  induction l with
  | nil => simp [insertDescBy]
  | cons y ys ih =>
    rcases List.pairwise_cons.mp h with ⟨hy, hys⟩
    unfold insertDescBy
    by_cases hc : key x < key y
    · rw [if_pos hc]
      refine List.pairwise_cons.mpr ⟨?_, ih hys⟩
      intro z hz
      rcases List.mem_cons.mp ((insertDescBy_perm key x ys).mem_iff.mp hz) with rfl | hz3
      · exact le_of_lt hc
      · exact hy z hz3
    · rw [if_neg hc]
      refine List.pairwise_cons.mpr ⟨?_, h⟩
      intro z hz
      rcases List.mem_cons.mp hz with rfl | hz3
      · exact not_lt.mp hc
      · exact le_trans (hy z hz3) (not_lt.mp hc)

theorem stableSortDescBy_pairwise {α : Type} (key : α → ℤ) (l : List α) :
    List.Pairwise (fun a b => key b ≤ key a) (stableSortDescBy key l) := by
  induction l with
  | nil => simp [stableSortDescBy]
  | cons x xs ih =>
    unfold stableSortDescBy
    exact insertDescBy_pairwise key x _ ih

/-- C10: the deck listing returns one entry per stored deck (a permutation
of the projections), ordered by creation time descending, and each entry
is exactly the four-field projection `{_id, brandName, deckUrl, createdAt}`
of one stored deck — no other stored field appears. -/
theorem listDecks_spec (store : List DeckRecord) :
    (listDecks store).Perm (store.map deckSummary) ∧
    (listDecks store).length = store.length ∧
    List.Pairwise (fun a b : DeckSummary => b.createdAt ≤ a.createdAt) (listDecks store) ∧
    ∀ e ∈ listDecks store, ∃ d ∈ store, e = deckSummary d := by
  have hperm : List.Perm (stableSortDescBy (fun d : DeckRecord => d.createdAt) store) store :=
    stableSortDescBy_perm _ _
  refine ⟨hperm.map deckSummary, ?_, ?_, ?_⟩
  · unfold listDecks
    rw [List.length_map, hperm.length_eq]
  · unfold listDecks
    exact List.Pairwise.map deckSummary (fun a b hab => hab)
      (stableSortDescBy_pairwise (fun d : DeckRecord => d.createdAt) store)
  · intro e he
    unfold listDecks at he
    rcases List.mem_map.mp he with ⟨d, hd, rfl⟩
    exact ⟨d, hperm.mem_iff.mp hd, rfl⟩

end SalesDeck
